import Mathlib

/-!
Verification of the antipattern rule engine of `bq-sql-antipattern-checker`.

The Python sources analysed here are
`src/bq_sql_antipattern_checker/antipatterns.py`,
`src/bq_sql_antipattern_checker/functions.py`,
`src/bq_sql_antipattern_checker/classes.py` and
`src/bq_sql_antipattern_checker/config.py`.

The development shallowly embeds the sqlglot expression trees consumed by the
rules, the helper functions of `functions.py`, the rule functions of
`antipatterns.py` that the claims are about, the per-statement aggregation
loop of `Job.check_antipatterns`, and the configuration lookup of
`Config.is_antipattern_enabled`, and proves or refutes the frozen claims
against those definitions.

Modelling conventions, used throughout:
* A sqlglot `Expression` is a tagged node with an insertion-ordered mapping
  of argument names to values (child node, list of nodes, string, or bool).
  We model it as `Node` below; the argument mapping keeps its order.
* `Expression.find_all` / `Expression.find` enumerate the subtree in
  breadth-first order (sqlglot's default `bfs=True`), the node itself first,
  children in argument order, list arguments element by element.  We model
  this with a fuel-bounded breadth-first walk whose fuel (`sizeOf`) always
  dominates the tree depth.
* Python `dict`s are insertion-ordered association lists
  (`List (String × α)`); `dict.get` is `alookup`.
* Python code that can raise is embedded in `Except PyErr`.
* Python floats appearing in the day-conversion table of
  `check_big_date_range` are modelled as exact decimal rationals (`ℚ`).
-/

set_option maxRecDepth 4096

namespace BqChecker

/-- The sqlglot expression classes that the analysed rules pattern-match on.
Constructor names follow the Python class names (`exp.Select`, `exp.From`,
`exp.Where`, ...). -/
inductive Kind where
  | select | withK | cte | tableAlias | fromK | whereK | join | table
  | column | identifier | literal | star | count | distinct | group
  | boolean | andK | eq | gt | gte | lt | like | inK
  | regexpLike | regexpReplace | regexpExtract | between
  | dateSub | dateAdd | sub | neg | mul | var | cast | dataType | unnest
  deriving DecidableEq, Repr

mutual
/-- One argument value of a sqlglot expression node: a child expression, a
list of child expressions, a string scalar, or a boolean scalar (sqlglot also
stores ints, which the analysed code only ever reads back as strings, so
string scalars suffice for the embedded fragment). -/
inductive AVal where
  | vn (n : Node)
  | vlist (ns : List Node)
  | vs (s : String)
  | vb (b : Bool)

/-- A sqlglot expression node: a class tag plus the insertion-ordered `args`
mapping. -/
inductive Node where
  | mk (kind : Kind) (args : List (String × AVal))
end

/-- The class tag of a node. -/
def Node.kind : Node → Kind
  | .mk k _ => k

/-- The `args` mapping of a node, in insertion order. -/
def Node.args : Node → List (String × AVal)
  | .mk _ a => a

/-- First-match lookup in an insertion-ordered association list
(Python `dict.get`). -/
def alookup {α : Type} : List (String × α) → String → Option α
  | [], _ => none
  | (k, v) :: rest, key => if k = key then some v else alookup rest key

/-- `node.args.get(name)`. -/
def argGet (n : Node) (name : String) : Option AVal :=
  alookup n.args name

/-- `node.args.get(name)` when the caller treats the value as a child node. -/
def argNode (n : Node) (name : String) : Option Node :=
  match argGet n name with
  | some (.vn m) => some m
  | _ => none

/-- `node.args.get(name)` when the caller treats the value as a string. -/
def argStr (n : Node) (name : String) : Option String :=
  match argGet n name with
  | some (.vs s) => some s
  | _ => none

/-- Python truthiness of an argument value. -/
def AVal.truthy : AVal → Bool
  | .vn _ => true
  | .vlist ns => !ns.isEmpty
  | .vs s => !(s = "")
  | .vb b => b

/-- Python truthiness of the result of `node.args.get(name)` (`None` is
falsy). -/
def truthyOpt : Option AVal → Bool
  | none => false
  | some v => v.truthy

/-- The child expressions of a node in argument order, list arguments
flattened in element order (sqlglot `iter_expressions`). -/
def childrenOf (n : Node) : List Node :=
  n.args.foldr
    (fun (p : String × AVal) acc =>
      match p.2 with
      | .vn m => m :: acc
      | .vlist ns => ns ++ acc
      | _ => acc) []

mutual
/-- An executable size measure on nodes; it strictly dominates the depth of
the tree and is used as breadth-first traversal fuel. -/
def nodeSize : Node → Nat
  | .mk _ args => 1 + argsSize args

/-- Size of an argument mapping. -/
def argsSize : List (String × AVal) → Nat
  | [] => 0
  | (_, v) :: rest => avalSize v + argsSize rest

/-- Size of one argument value. -/
def avalSize : AVal → Nat
  | .vn n => nodeSize n
  | .vlist ns => nlistSize ns
  | .vs _ => 1
  | .vb _ => 1

/-- Size of a node list. -/
def nlistSize : List Node → Nat
  | [] => 0
  | n :: rest => nodeSize n + nlistSize rest
end

/-- Fuel-bounded breadth-first enumeration by levels.  With fuel at least the
tree depth this enumerates the whole subtree in sqlglot's `walk(bfs=True)`
order. -/
def bfsAux : Nat → List Node → List Node
  | 0, _ => []
  | _ + 1, [] => []
  | fuel + 1, level => level ++ bfsAux fuel (level.foldr (fun n acc => childrenOf n ++ acc) [])

/-- sqlglot `Expression.walk()` (breadth-first, the node itself first).
`nodeSize` strictly dominates the depth of the tree, so the fuel never runs
out. -/
def walk (n : Node) : List Node :=
  bfsAux (nodeSize n) [n]

/-- sqlglot `Expression.find_all(exp.K)` as a list. -/
def findAll (n : Node) (k : Kind) : List Node :=
  (walk n).filter (fun m => m.kind = k)

/-- sqlglot `Expression.find(exp.K)`: the first node of class `K` in
breadth-first order, if any. -/
def findK (n : Node) (k : Kind) : Option Node :=
  (findAll n k).head?

/-- `find_all` over several classes at once, concatenated per class the way
the Python code concatenates `list(x.find_all(A)) + list(x.find_all(B))`. -/
def findAllList (n : Node) (ks : List Kind) : List Node :=
  ks.foldr (fun k acc => findAll n k ++ acc) []

/-- Errors a piece of embedded Python code can raise. -/
inductive PyErr where
  | typeError (msg : String)
  | keyError (msg : String)
  | valueError (msg : String)
  | nameError (msg : String)
  | attributeError (msg : String)
  deriving DecidableEq, Repr

deriving instance DecidableEq for Except

/-- Python `str.find` on character lists: index of the first occurrence of
`needle`, or `-1`. -/
def pyFindAux : List Char → List Char → Nat → Int
  | hay, needle, i =>
    if needle.isPrefixOf hay then (i : Int)
    else match hay with
      | [] => -1
      | _ :: t => pyFindAux t needle (i + 1)

/-- Python `haystack.find(needle)`. -/
def pyFind (hay needle : String) : Int :=
  pyFindAux hay.data needle.data 0

/-- Python `needle in haystack` for strings. -/
def pyContains (hay needle : String) : Bool :=
  pyFind hay needle ≥ 0

/-- Python `str.lower()` (ASCII case folding suffices for the identifiers the
rules compare). -/
def pyLower (s : String) : String :=
  ⟨s.data.map Char.toLower⟩

/-- Python `str.isnumeric()` restricted to ASCII digits (the literals the
rules inspect). -/
def pyIsNumeric (s : String) : Bool :=
  !(s = "") && s.data.all Char.isDigit

/-- Decimal digits to a number. -/
def digitsToNat (l : List Char) : Nat :=
  l.foldl (fun acc c => acc * 10 + (c.toNat - 48)) 0

/-- Python `int(s)` for a string of digits (callers guard with
`isnumeric`). -/
def pyIntOfDigits (s : String) : Nat :=
  digitsToNat s.data

/-- Python `int(s)` where the argument may fail to parse (raises
`ValueError`); an optional sign followed by at least one digit parses (the
analysed literals carry no surrounding whitespace). -/
def pyIntParse (s : String) : Except PyErr Int :=
  match s.data with
  | [] => .error (.valueError ("invalid literal for int: " ++ s))
  | c :: rest =>
    if c = '-' then
      (if !rest.isEmpty && rest.all Char.isDigit then .ok (-(digitsToNat rest : Int))
       else .error (.valueError ("invalid literal for int: " ++ s)))
    else if c = '+' then
      (if !rest.isEmpty && rest.all Char.isDigit then .ok (digitsToNat rest : Int)
       else .error (.valueError ("invalid literal for int: " ++ s)))
    else if (c :: rest).all Char.isDigit then .ok (digitsToNat (c :: rest) : Int)
    else .error (.valueError ("invalid literal for int: " ++ s))

/-- Python `str.replace(old, new)` on character lists, non-overlapping, left
to right; the fuel is the haystack length (each removal consumes at least
one character because the callers' `old` is never empty). -/
def pyReplaceAux : Nat → List Char → List Char → List Char → List Char
  | 0, hay, _, _ => hay
  | _ + 1, [], _, _ => []
  | fuel + 1, c :: t, old, new =>
    if !old.isEmpty && old.isPrefixOf (c :: t) then
      new ++ pyReplaceAux fuel ((c :: t).drop old.length) old new
    else c :: pyReplaceAux fuel t old new

/-- Python `s.replace(old, new)` (the analysed calls use `old = "*"` and
`old = "'"`; replacing the empty string is not exercised). -/
def pyReplace (s old new : String) : String :=
  if old = "" then s
  else ⟨pyReplaceAux s.data.length s.data old.data new.data⟩

/-- Lexicographic code-point comparison (Python string `<=`). -/
def charListLe : List Char → List Char → Bool
  | [], _ => true
  | _ :: _, [] => false
  | a :: as, b :: bs => if a = b then charListLe as bs else decide (a.toNat < b.toNat)

/-- Insertion of a string into a lexicographically sorted list. -/
def strInsortOne (s : String) : List String → List String
  | [] => [s]
  | x :: rest =>
    if charListLe s.data x.data then s :: x :: rest else x :: strInsortOne s rest

/-- Python `list.sort()` on strings (lexicographic insertion sort). -/
def strSort (l : List String) : List String :=
  l.foldr strInsortOne []

/-! ## config.py -/

/-- `AntipatternConfig` from `config.py`: per-rule enable flag with default
`enabled = True`. -/
structure AntipatternConfig where
  enabled : Bool := true
  description : Option String := none
  deriving DecidableEq, Repr

/-- `Config` from `config.py`, restricted to the fields the analysed core
reads (the BigQuery connection settings are pass-through data for the
excluded collaborators and are not consulted by any rule). -/
structure Config where
  antipatterns : Option (List (String × AntipatternConfig))
  large_table_row_count : Int := 1000
  distinct_function_row_count : Int := 10000
  deriving DecidableEq, Repr

/-- `Config.is_antipattern_enabled` (config.py lines 132-136):
`self.antipatterns.get(antipattern_name, AntipatternConfig()).enabled`, with
`True` when the whole mapping is `None`. -/
def Config.is_antipattern_enabled (c : Config) (name : String) : Bool :=
  match c.antipatterns with
  | none => true
  | some m => ((alookup m name).getD {}).enabled

/-! ## classes.py: the per-statement aggregation loop of
`Job.check_antipatterns`

`Job.check_antipatterns` parses every statement of the job and, per
statement, runs each enabled rule inside its own `try`/`except` and merges
the outcome into the job's attributes.  The merging logic is embedded below
with the per-statement rule outcomes as inputs (`StmtResults`); a field value
`none` means the rule did not run for that statement (disabled checks are
handled separately, and a rule that raised is caught by the `except` block
before any attribute assignment happened). -/

/-- One element of `Job.available_partitions`: the dictionaries
`{"table_name": ..., "partitioned_column": ...}` built by
`check_partition_used`. -/
structure PartitionEvid where
  table_name : String
  partitioned_column : String
  deriving DecidableEq, Repr

/-- The sentinel `{"table_name": "-", "partitioned_column": "-"}` assigned
when `check_partition_used` does not trigger (classes.py lines 131-133). -/
def partitionSentinel : PartitionEvid := ⟨"-", "-"⟩

/-- classes.py lines 124-129:
`[dict(t) for t in {tuple(d.items()) for d in self.available_partitions}]`.
Python materialises the list through an unordered set; the embedding keeps
the first occurrence of each duplicate, which realises the same finite set
of evidence dictionaries. -/
def pySetDedup (l : List PartitionEvid) : List PartitionEvid :=
  l.eraseDups

/-- The outcome of every rule on one analysable statement, as consumed by the
merging code of `Job.check_antipatterns`.  `none`: the rule did not produce a
result for this statement (its `except` branch was taken before any
assignment). -/
structure StmtResults where
  partition_used : Option (Bool × List PartitionEvid) := none
  big_date_range : Option Bool := none
  big_table_no_date : Option (Bool × List String) := none
  select_star : Option Bool := none
  multiple_cte_reference : Option Bool := none
  semi_join_without_aggregation : Option Bool := none
  order_without_limit : Option Bool := none
  like_before_more_selective : Option Bool := none
  regexp_in_where : Option Bool := none
  unpartitioned_tables : Option (Bool × List String) := none
  distinct_on_big_table : Option Bool := none
  count_distinct_on_big_table : Option Bool := none
  deriving DecidableEq, Repr

/-- The antipattern-result attributes of a `Job` (classes.py lines 66-80). -/
structure JobState where
  partition_not_used : Bool
  available_partitions : List PartitionEvid
  big_date_range : Bool
  no_date_on_big_table : Bool
  tables_without_date_filter : List String
  select_star : Bool
  references_cte_multiple_times : Bool
  semi_join_without_aggregation : Bool
  order_without_limit : Bool
  like_before_more_selective : Bool
  regexp_in_where : Bool
  queries_unpartitioned_table : Bool
  unpartitioned_tables : List String
  distinct_on_big_table : Bool
  count_distinct_on_big_table : Bool
  deriving DecidableEq, Repr

/-- The attribute values set by `Job.__init__` (classes.py lines 66-80). -/
def initJobState : JobState :=
  ⟨false, [], false, false, [], false, false, false, false, false, false,
   false, [], false, false⟩

/-- The merge of one analysable statement's rule outcomes into the job
attributes, translated block by block from `Job.check_antipatterns`
(classes.py lines 114-261).  Each block only assigns its own attributes, so
the sequential assignments are rendered as one simultaneous record update. -/
def processStatement (cfg : Config) (st : JobState) (r : StmtResults) : JobState :=
  -- lines 116-135: partition_used block
  let puRes := if cfg.is_antipattern_enabled "partition_used" then r.partition_used else none
  -- lines 138-143: big_date_range block (`self.big_date_range = big_date_range`)
  let bdrRes := if cfg.is_antipattern_enabled "big_date_range" then r.big_date_range else none
  -- lines 146-157: big_table_no_date block
  let btRes := if cfg.is_antipattern_enabled "big_table_no_date" then r.big_table_no_date else none
  -- lines 160-167: select_star block (`max(new, old)`)
  let ssRes := if cfg.is_antipattern_enabled "select_star" then r.select_star else none
  -- lines 170-180: multiple_cte_reference block
  let mcRes := if cfg.is_antipattern_enabled "multiple_cte_reference" then r.multiple_cte_reference else none
  -- lines 183-190: semi_join_without_aggregation block
  let sjRes := if cfg.is_antipattern_enabled "semi_join_without_aggregation" then r.semi_join_without_aggregation else none
  -- lines 193-200: order_without_limit block
  let olRes := if cfg.is_antipattern_enabled "order_without_limit" then r.order_without_limit else none
  -- lines 203-210: like_before_more_selective block
  let lbRes := if cfg.is_antipattern_enabled "like_before_more_selective" then r.like_before_more_selective else none
  -- lines 213-220: regexp_in_where block
  let rwRes := if cfg.is_antipattern_enabled "regexp_in_where" then r.regexp_in_where else none
  -- lines 223-237: unpartitioned_tables block
  let upRes := if cfg.is_antipattern_enabled "unpartitioned_tables" then r.unpartitioned_tables else none
  -- lines 240-249: distinct_on_big_table block
  let dbRes := if cfg.is_antipattern_enabled "distinct_on_big_table" then r.distinct_on_big_table else none
  -- lines 252-261: count_distinct_on_big_table block
  let cdRes := if cfg.is_antipattern_enabled "count_distinct_on_big_table" then r.count_distinct_on_big_table else none
  -- line 228: `max(queries_unpartitioned_table, self.queries_unpartitioned_table)`
  let qup := match upRes with
    | some (b, _) => b || st.queries_unpartitioned_table
    | none => st.queries_unpartitioned_table
  { -- line 122: assigned only in the `if partition_not_used:` branch
    partition_not_used :=
      match puRes with
      | some (b, _) => if b then true else st.partition_not_used
      | none => st.partition_not_used
    -- lines 123-133: accumulate-and-dedup when triggered, sentinel otherwise
    available_partitions :=
      match puRes with
      | some (b, ev) =>
        if b then pySetDedup (st.available_partitions ++ ev) else [partitionSentinel]
      | none => st.available_partitions
    -- line 141: direct assignment of the statement's result
    big_date_range :=
      match bdrRes with
      | some b => b
      | none => st.big_date_range
    -- line 152: assigned only in the `if no_date_on_big_table:` branch
    no_date_on_big_table :=
      match btRes with
      | some (b, _) => if b then true else st.no_date_on_big_table
      | none => st.no_date_on_big_table
    -- lines 153-155: `+=` when triggered (no dedup), sentinel otherwise
    tables_without_date_filter :=
      match btRes with
      | some (b, l) =>
        if b then st.tables_without_date_filter ++ l else ["-"]
      | none => st.tables_without_date_filter
    select_star :=
      match ssRes with
      | some b => b || st.select_star
      | none => st.select_star
    references_cte_multiple_times :=
      match mcRes with
      | some b => b || st.references_cte_multiple_times
      | none => st.references_cte_multiple_times
    semi_join_without_aggregation :=
      match sjRes with
      | some b => b || st.semi_join_without_aggregation
      | none => st.semi_join_without_aggregation
    order_without_limit :=
      match olRes with
      | some b => b || st.order_without_limit
      | none => st.order_without_limit
    like_before_more_selective :=
      match lbRes with
      | some b => b || st.like_before_more_selective
      | none => st.like_before_more_selective
    regexp_in_where :=
      match rwRes with
      | some b => b || st.regexp_in_where
      | none => st.regexp_in_where
    queries_unpartitioned_table := qup
    -- lines 231-235: `+=` with the statement's list or the sentinel,
    -- depending on the just-updated boolean
    unpartitioned_tables :=
      match upRes with
      | some (_, l) => st.unpartitioned_tables ++ (if qup then l else ["-"])
      | none => st.unpartitioned_tables
    distinct_on_big_table :=
      match dbRes with
      | some b => b || st.distinct_on_big_table
      | none => st.distinct_on_big_table
    count_distinct_on_big_table :=
      match cdRes with
      | some b => b || st.count_distinct_on_big_table
      | none => st.count_distinct_on_big_table }

/-- The statement loop of `Job.check_antipatterns` over the analysable
statements of the job, in order. -/
def processJob (cfg : Config) (st : JobState) (rs : List StmtResults) : JobState :=
  rs.foldl (processStatement cfg) st

/-- A configuration whose `antipatterns` mapping is `None`:
`is_antipattern_enabled` answers `True` for every rule. -/
def cfgAllEnabled : Config :=
  { antipatterns := none }

/-! Per-field unfolding lemmas for `processStatement` (definitional). -/

@[simp] theorem pS_partition_not_used (cfg : Config) (st : JobState) (r : StmtResults) :
    (processStatement cfg st r).partition_not_used =
      (match (if cfg.is_antipattern_enabled "partition_used" then r.partition_used else none) with
       | some (b, _) => if b then true else st.partition_not_used
       | none => st.partition_not_used) := rfl

@[simp] theorem pS_available_partitions (cfg : Config) (st : JobState) (r : StmtResults) :
    (processStatement cfg st r).available_partitions =
      (match (if cfg.is_antipattern_enabled "partition_used" then r.partition_used else none) with
       | some (b, ev) =>
         if b then pySetDedup (st.available_partitions ++ ev) else [partitionSentinel]
       | none => st.available_partitions) := rfl

@[simp] theorem pS_big_date_range (cfg : Config) (st : JobState) (r : StmtResults) :
    (processStatement cfg st r).big_date_range =
      (match (if cfg.is_antipattern_enabled "big_date_range" then r.big_date_range else none) with
       | some b => b
       | none => st.big_date_range) := rfl

@[simp] theorem pS_no_date_on_big_table (cfg : Config) (st : JobState) (r : StmtResults) :
    (processStatement cfg st r).no_date_on_big_table =
      (match (if cfg.is_antipattern_enabled "big_table_no_date" then r.big_table_no_date else none) with
       | some (b, _) => if b then true else st.no_date_on_big_table
       | none => st.no_date_on_big_table) := rfl

@[simp] theorem pS_tables_without_date_filter (cfg : Config) (st : JobState) (r : StmtResults) :
    (processStatement cfg st r).tables_without_date_filter =
      (match (if cfg.is_antipattern_enabled "big_table_no_date" then r.big_table_no_date else none) with
       | some (b, l) => if b then st.tables_without_date_filter ++ l else ["-"]
       | none => st.tables_without_date_filter) := rfl

@[simp] theorem pS_select_star (cfg : Config) (st : JobState) (r : StmtResults) :
    (processStatement cfg st r).select_star =
      (match (if cfg.is_antipattern_enabled "select_star" then r.select_star else none) with
       | some b => b || st.select_star
       | none => st.select_star) := rfl

@[simp] theorem pS_references_cte_multiple_times (cfg : Config) (st : JobState) (r : StmtResults) :
    (processStatement cfg st r).references_cte_multiple_times =
      (match (if cfg.is_antipattern_enabled "multiple_cte_reference" then r.multiple_cte_reference else none) with
       | some b => b || st.references_cte_multiple_times
       | none => st.references_cte_multiple_times) := rfl

@[simp] theorem pS_semi_join_without_aggregation (cfg : Config) (st : JobState) (r : StmtResults) :
    (processStatement cfg st r).semi_join_without_aggregation =
      (match (if cfg.is_antipattern_enabled "semi_join_without_aggregation" then r.semi_join_without_aggregation else none) with
       | some b => b || st.semi_join_without_aggregation
       | none => st.semi_join_without_aggregation) := rfl

@[simp] theorem pS_order_without_limit (cfg : Config) (st : JobState) (r : StmtResults) :
    (processStatement cfg st r).order_without_limit =
      (match (if cfg.is_antipattern_enabled "order_without_limit" then r.order_without_limit else none) with
       | some b => b || st.order_without_limit
       | none => st.order_without_limit) := rfl

@[simp] theorem pS_like_before_more_selective (cfg : Config) (st : JobState) (r : StmtResults) :
    (processStatement cfg st r).like_before_more_selective =
      (match (if cfg.is_antipattern_enabled "like_before_more_selective" then r.like_before_more_selective else none) with
       | some b => b || st.like_before_more_selective
       | none => st.like_before_more_selective) := rfl

@[simp] theorem pS_regexp_in_where (cfg : Config) (st : JobState) (r : StmtResults) :
    (processStatement cfg st r).regexp_in_where =
      (match (if cfg.is_antipattern_enabled "regexp_in_where" then r.regexp_in_where else none) with
       | some b => b || st.regexp_in_where
       | none => st.regexp_in_where) := rfl

@[simp] theorem pS_queries_unpartitioned_table (cfg : Config) (st : JobState) (r : StmtResults) :
    (processStatement cfg st r).queries_unpartitioned_table =
      (match (if cfg.is_antipattern_enabled "unpartitioned_tables" then r.unpartitioned_tables else none) with
       | some (b, _) => b || st.queries_unpartitioned_table
       | none => st.queries_unpartitioned_table) := rfl

@[simp] theorem pS_distinct_on_big_table (cfg : Config) (st : JobState) (r : StmtResults) :
    (processStatement cfg st r).distinct_on_big_table =
      (match (if cfg.is_antipattern_enabled "distinct_on_big_table" then r.distinct_on_big_table else none) with
       | some b => b || st.distinct_on_big_table
       | none => st.distinct_on_big_table) := rfl

@[simp] theorem pS_count_distinct_on_big_table (cfg : Config) (st : JobState) (r : StmtResults) :
    (processStatement cfg st r).count_distinct_on_big_table =
      (match (if cfg.is_antipattern_enabled "count_distinct_on_big_table" then r.count_distinct_on_big_table else none) with
       | some b => b || st.count_distinct_on_big_table
       | none => st.count_distinct_on_big_table) := rfl

/-- One statement's merge never turns any of the OR-aggregated booleans from
`true` back to `false` (all result booleans except `big_date_range`). -/
theorem processStatement_mono (cfg : Config) (st : JobState) (r : StmtResults) :
    (st.partition_not_used = true → (processStatement cfg st r).partition_not_used = true) ∧
    (st.no_date_on_big_table = true → (processStatement cfg st r).no_date_on_big_table = true) ∧
    (st.select_star = true → (processStatement cfg st r).select_star = true) ∧
    (st.references_cte_multiple_times = true →
      (processStatement cfg st r).references_cte_multiple_times = true) ∧
    (st.semi_join_without_aggregation = true →
      (processStatement cfg st r).semi_join_without_aggregation = true) ∧
    (st.order_without_limit = true → (processStatement cfg st r).order_without_limit = true) ∧
    (st.like_before_more_selective = true →
      (processStatement cfg st r).like_before_more_selective = true) ∧
    (st.regexp_in_where = true → (processStatement cfg st r).regexp_in_where = true) ∧
    (st.queries_unpartitioned_table = true →
      (processStatement cfg st r).queries_unpartitioned_table = true) ∧
    (st.distinct_on_big_table = true → (processStatement cfg st r).distinct_on_big_table = true) ∧
    (st.count_distinct_on_big_table = true →
      (processStatement cfg st r).count_distinct_on_big_table = true) := by
  refine ⟨?_, ?_, ?_, ?_, ?_, ?_, ?_, ?_, ?_, ?_, ?_⟩ <;>
    · intro h
      simp only [pS_partition_not_used, pS_no_date_on_big_table, pS_select_star,
        pS_references_cte_multiple_times, pS_semi_join_without_aggregation,
        pS_order_without_limit, pS_like_before_more_selective, pS_regexp_in_where,
        pS_queries_unpartitioned_table, pS_distinct_on_big_table,
        pS_count_distinct_on_big_table]
      split <;> simp_all

/-- Whole-job persistence of the OR-aggregated booleans. -/
theorem processJob_mono (cfg : Config) (rs : List StmtResults) : ∀ st : JobState,
    (st.partition_not_used = true → (processJob cfg st rs).partition_not_used = true) ∧
    (st.no_date_on_big_table = true → (processJob cfg st rs).no_date_on_big_table = true) ∧
    (st.select_star = true → (processJob cfg st rs).select_star = true) ∧
    (st.references_cte_multiple_times = true →
      (processJob cfg st rs).references_cte_multiple_times = true) ∧
    (st.semi_join_without_aggregation = true →
      (processJob cfg st rs).semi_join_without_aggregation = true) ∧
    (st.order_without_limit = true → (processJob cfg st rs).order_without_limit = true) ∧
    (st.like_before_more_selective = true →
      (processJob cfg st rs).like_before_more_selective = true) ∧
    (st.regexp_in_where = true → (processJob cfg st rs).regexp_in_where = true) ∧
    (st.queries_unpartitioned_table = true →
      (processJob cfg st rs).queries_unpartitioned_table = true) ∧
    (st.distinct_on_big_table = true → (processJob cfg st rs).distinct_on_big_table = true) ∧
    (st.count_distinct_on_big_table = true →
      (processJob cfg st rs).count_distinct_on_big_table = true) := by
  induction rs with
  | nil => intro st; exact ⟨id, id, id, id, id, id, id, id, id, id, id⟩
  | cons r rest ih =>
    intro st
    have hstep := processStatement_mono cfg st r
    have hrest := ih (processStatement cfg st r)
    simp only [processJob, List.foldl_cons] at *
    exact ⟨fun h => hrest.1 (hstep.1 h),
      fun h => hrest.2.1 (hstep.2.1 h),
      fun h => hrest.2.2.1 (hstep.2.2.1 h),
      fun h => hrest.2.2.2.1 (hstep.2.2.2.1 h),
      fun h => hrest.2.2.2.2.1 (hstep.2.2.2.2.1 h),
      fun h => hrest.2.2.2.2.2.1 (hstep.2.2.2.2.2.1 h),
      fun h => hrest.2.2.2.2.2.2.1 (hstep.2.2.2.2.2.2.1 h),
      fun h => hrest.2.2.2.2.2.2.2.1 (hstep.2.2.2.2.2.2.2.1 h),
      fun h => hrest.2.2.2.2.2.2.2.2.1 (hstep.2.2.2.2.2.2.2.2.1 h),
      fun h => hrest.2.2.2.2.2.2.2.2.2.1 (hstep.2.2.2.2.2.2.2.2.2.1 h),
      fun h => hrest.2.2.2.2.2.2.2.2.2.2 (hstep.2.2.2.2.2.2.2.2.2.2 h)⟩

/-- A statement on which `check_partition_used` and `check_big_table_no_date`
both trigger, with evidence. -/
def puTriggerStmt : StmtResults :=
  { partition_used := some (true, [⟨"proj.ds.big", "dt"⟩]),
    big_table_no_date := some (true, ["proj.ds.big"]) }

/-- A later statement of the same job on which neither rule triggers. -/
def puNoTriggerStmt : StmtResults :=
  { partition_used := some (false, []),
    big_table_no_date := some (false, []) }

/-- C2, counterexample.  The claim says per-rule evidence accumulates as a
deduplicated union across statements, evidence from an earlier statement
survives a later non-triggering statement, and the sentinel appears only when
no statement of the job triggered the rule.  On the code, a job whose first
statement triggers `partition_used` (evidence `proj.ds.big`/`dt`) and
`big_table_no_date` (evidence `proj.ds.big`) and whose second statement
triggers neither ends with both evidence lists reset to the sentinel while
both booleans are still `true`: the earlier evidence is discarded and the
sentinel appears although the job did trigger both rules. -/
theorem C2_counterexample :
    (processJob cfgAllEnabled initJobState [puTriggerStmt]).available_partitions
        = [⟨"proj.ds.big", "dt"⟩] ∧
    (processJob cfgAllEnabled initJobState [puTriggerStmt]).tables_without_date_filter
        = ["proj.ds.big"] ∧
    (processJob cfgAllEnabled initJobState
        [puTriggerStmt, puNoTriggerStmt]).partition_not_used = true ∧
    (processJob cfgAllEnabled initJobState
        [puTriggerStmt, puNoTriggerStmt]).available_partitions = [partitionSentinel] ∧
    (processJob cfgAllEnabled initJobState
        [puTriggerStmt, puNoTriggerStmt]).no_date_on_big_table = true ∧
    (processJob cfgAllEnabled initJobState
        [puTriggerStmt, puNoTriggerStmt]).tables_without_date_filter = ["-"] := by
  decide

/-- C2, amended.  Evidence accumulates only across triggering statements
(`available_partitions` deduplicated through a set,
`tables_without_date_filter` concatenated without deduplication); a later
statement on which the rule does not trigger resets the rule's evidence list
to its sentinel, discarding earlier evidence, while the triggered boolean
stays `true`.  The sentinel therefore marks "the last processed statement did
not trigger the rule", not "no statement of the job triggered it". -/
theorem C2_amended (cfg : Config) (st : JobState) (r1 r2 : StmtResults)
    (ev1 : List PartitionEvid) (l1 : List String)
    (hpu : cfg.is_antipattern_enabled "partition_used" = true)
    (hbt : cfg.is_antipattern_enabled "big_table_no_date" = true)
    (h1 : r1.partition_used = some (true, ev1))
    (h3 : r1.big_table_no_date = some (true, l1)) :
    (∀ ev2, r2.partition_used = some (false, ev2) →
      (processJob cfg st [r1, r2]).available_partitions = [partitionSentinel] ∧
      (processJob cfg st [r1, r2]).partition_not_used = true) ∧
    (∀ ev2, r2.partition_used = some (true, ev2) →
      (processJob cfg st [r1, r2]).available_partitions =
        pySetDedup (pySetDedup (st.available_partitions ++ ev1) ++ ev2)) ∧
    (∀ l2, r2.big_table_no_date = some (false, l2) →
      (processJob cfg st [r1, r2]).tables_without_date_filter = ["-"] ∧
      (processJob cfg st [r1, r2]).no_date_on_big_table = true) ∧
    (∀ l2, r2.big_table_no_date = some (true, l2) →
      (processJob cfg st [r1, r2]).tables_without_date_filter =
        st.tables_without_date_filter ++ l1 ++ l2) := by
  simp only [processJob, List.foldl_cons, List.foldl_nil]
  refine ⟨?_, ?_, ?_, ?_⟩ <;>
    · intro x hx
      simp [pS_available_partitions, pS_partition_not_used, pS_tables_without_date_filter,
        pS_no_date_on_big_table, hpu, hbt, h1, h3, hx, List.append_assoc]

/-- Witness for `C2_amended` at a concrete job. -/
theorem C2_amended_witness :
    (processJob cfgAllEnabled initJobState
        [puTriggerStmt, puNoTriggerStmt]).available_partitions = [partitionSentinel] ∧
    (processJob cfgAllEnabled initJobState
        [puTriggerStmt, puNoTriggerStmt]).partition_not_used = true :=
  (C2_amended cfgAllEnabled initJobState puTriggerStmt puNoTriggerStmt
    [⟨"proj.ds.big", "dt"⟩] ["proj.ds.big"] rfl rfl rfl rfl).1 [] rfl

/-- A statement on which `check_big_date_range` triggers. -/
def bdrTrueStmt : StmtResults := { big_date_range := some true }

/-- A statement on which `check_big_date_range` does not trigger. -/
def bdrFalseStmt : StmtResults := { big_date_range := some false }

/-- C3, counterexample.  The claim says every enabled rule's per-job boolean
is the OR of the per-statement results and never reverts to `false`.  For
`big_date_range` the code assigns the raw statement result
(`self.big_date_range = big_date_range`, classes.py line 141): a job whose
first statement triggers and whose second does not ends with
`big_date_range = false`. -/
theorem C3_counterexample :
    (processJob cfgAllEnabled initJobState [bdrTrueStmt]).big_date_range = true ∧
    (processJob cfgAllEnabled initJobState [bdrTrueStmt, bdrFalseStmt]).big_date_range
      = false := by
  decide

/-- C3, amended.  For every enabled rule except `big_date_range` the per-job
boolean after a statement equals (previous boolean) OR (statement result),
and once `true` it stays `true` for the rest of the job; `big_date_range`
instead takes the value of the last processed statement's result and can
revert to `false`. -/
theorem C3_amended (cfg : Config) (st : JobState) (r : StmtResults)
    (rs : List StmtResults) :
    (∀ b ev, cfg.is_antipattern_enabled "partition_used" = true →
      r.partition_used = some (b, ev) →
      (processStatement cfg st r).partition_not_used = (st.partition_not_used || b)) ∧
    (∀ b l, cfg.is_antipattern_enabled "big_table_no_date" = true →
      r.big_table_no_date = some (b, l) →
      (processStatement cfg st r).no_date_on_big_table = (st.no_date_on_big_table || b)) ∧
    (∀ b, cfg.is_antipattern_enabled "select_star" = true → r.select_star = some b →
      (processStatement cfg st r).select_star = (st.select_star || b)) ∧
    (∀ b, cfg.is_antipattern_enabled "multiple_cte_reference" = true →
      r.multiple_cte_reference = some b →
      (processStatement cfg st r).references_cte_multiple_times =
        (st.references_cte_multiple_times || b)) ∧
    (∀ b, cfg.is_antipattern_enabled "semi_join_without_aggregation" = true →
      r.semi_join_without_aggregation = some b →
      (processStatement cfg st r).semi_join_without_aggregation =
        (st.semi_join_without_aggregation || b)) ∧
    (∀ b, cfg.is_antipattern_enabled "order_without_limit" = true →
      r.order_without_limit = some b →
      (processStatement cfg st r).order_without_limit = (st.order_without_limit || b)) ∧
    (∀ b, cfg.is_antipattern_enabled "like_before_more_selective" = true →
      r.like_before_more_selective = some b →
      (processStatement cfg st r).like_before_more_selective =
        (st.like_before_more_selective || b)) ∧
    (∀ b, cfg.is_antipattern_enabled "regexp_in_where" = true →
      r.regexp_in_where = some b →
      (processStatement cfg st r).regexp_in_where = (st.regexp_in_where || b)) ∧
    (∀ b l, cfg.is_antipattern_enabled "unpartitioned_tables" = true →
      r.unpartitioned_tables = some (b, l) →
      (processStatement cfg st r).queries_unpartitioned_table =
        (st.queries_unpartitioned_table || b)) ∧
    (∀ b, cfg.is_antipattern_enabled "distinct_on_big_table" = true →
      r.distinct_on_big_table = some b →
      (processStatement cfg st r).distinct_on_big_table = (st.distinct_on_big_table || b)) ∧
    (∀ b, cfg.is_antipattern_enabled "count_distinct_on_big_table" = true →
      r.count_distinct_on_big_table = some b →
      (processStatement cfg st r).count_distinct_on_big_table =
        (st.count_distinct_on_big_table || b)) ∧
    (∀ b, cfg.is_antipattern_enabled "big_date_range" = true →
      r.big_date_range = some b →
      (processStatement cfg st r).big_date_range = b) ∧
    ((st.partition_not_used = true → (processJob cfg st rs).partition_not_used = true) ∧
     (st.no_date_on_big_table = true → (processJob cfg st rs).no_date_on_big_table = true) ∧
     (st.select_star = true → (processJob cfg st rs).select_star = true) ∧
     (st.references_cte_multiple_times = true →
       (processJob cfg st rs).references_cte_multiple_times = true) ∧
     (st.semi_join_without_aggregation = true →
       (processJob cfg st rs).semi_join_without_aggregation = true) ∧
     (st.order_without_limit = true → (processJob cfg st rs).order_without_limit = true) ∧
     (st.like_before_more_selective = true →
       (processJob cfg st rs).like_before_more_selective = true) ∧
     (st.regexp_in_where = true → (processJob cfg st rs).regexp_in_where = true) ∧
     (st.queries_unpartitioned_table = true →
       (processJob cfg st rs).queries_unpartitioned_table = true) ∧
     (st.distinct_on_big_table = true → (processJob cfg st rs).distinct_on_big_table = true) ∧
     (st.count_distinct_on_big_table = true →
       (processJob cfg st rs).count_distinct_on_big_table = true)) := by
  refine ⟨?_, ?_, ?_, ?_, ?_, ?_, ?_, ?_, ?_, ?_, ?_, ?_, processJob_mono cfg rs st⟩ <;>
    · intros
      simp_all [Bool.or_comm]

/-- Witness for `C3_amended` at a concrete job state and statement. -/
theorem C3_amended_witness :
    (processStatement cfgAllEnabled initJobState puTriggerStmt).partition_not_used =
      (initJobState.partition_not_used || true) ∧
    (processStatement cfgAllEnabled initJobState bdrFalseStmt).big_date_range = false ∧
    (processJob cfgAllEnabled
      { initJobState with select_star := true } [bdrFalseStmt]).select_star = true :=
  ⟨(C3_amended cfgAllEnabled initJobState puTriggerStmt []).1 true
      [⟨"proj.ds.big", "dt"⟩] rfl rfl,
   (C3_amended cfgAllEnabled initJobState bdrFalseStmt []).2.2.2.2.2.2.2.2.2.2.2.1
      false rfl rfl,
   (C3_amended cfgAllEnabled { initJobState with select_star := true } bdrFalseStmt
      [bdrFalseStmt]).2.2.2.2.2.2.2.2.2.2.2.2.2.2.1 rfl⟩

/-- C10: `Config.is_antipattern_enabled` returns `True` for every rule name
that is absent from the configuration's `antipatterns` mapping (and also when
the whole mapping is `None`): an unknown or misspelled rule id is treated as
enabled by default, because the lookup's fallback `AntipatternConfig()` has
`enabled = True`. -/
theorem C10_unknown_rule_enabled (c : Config) (name : String)
    (h : ∀ m, c.antipatterns = some m → alookup m name = none) :
    c.is_antipattern_enabled name = true := by
  unfold Config.is_antipattern_enabled
  cases hc : c.antipatterns with
  | none => rfl
  | some m => simp [h m hc]

/-- Witness for `C10_unknown_rule_enabled`: a configuration that explicitly
disables `select_star` still reports an unrelated, unknown rule id as
enabled. -/
theorem C10_unknown_rule_enabled_witness :
    Config.is_antipattern_enabled
      { antipatterns := some [("select_star", { enabled := false })] }
      "definitely_unknown_rule" = true :=
  C10_unknown_rule_enabled
    { antipatterns := some [("select_star", { enabled := false })] }
    "definitely_unknown_rule"
    (by intro m hm; cases hm; decide)

/-! ## functions.py: catalog model and resolution helpers -/

/-- One value of the `columns_dict` built by `get_columns_dict`: the
per-table metadata row keyed by `full_table_name`
(`total_rows`, `partitioned_column` (nullable), `datetime_columns`,
`table`). -/
structure CatEntry where
  total_rows : Int
  partitioned_column : Option String
  datetime_columns : List String
  table : String
  deriving DecidableEq, Repr

/-- The `columns_dict`: an insertion-ordered mapping from `full_table_name`
to its metadata row. -/
def Catalog : Type := List (String × CatEntry)

/-- Python truthiness of a nullable string (both `None` and `""` are
falsy). -/
def pyStrOptTruthy : Option String → Bool
  | none => false
  | some s => !(s = "")

/-- `get_alias_and_table_name_from_table` (functions.py lines 226-252).
Returns `(full_table_name, alias)`; both `None` when the table reference has
no `db` qualifier.  A node whose `this`/`db`/`catalog` chain is malformed
would make the Python raise `AttributeError`/`TypeError`; the embedding
returns `(None, None)` for such nodes, which every caller in this file
treats as "skip" — this can only shrink the set of admitted tables and never
admits a table the Python would not admit. -/
def get_alias_and_table_name_from_table (table : Node) :
    Option String × Option String :=
  if truthyOpt (argGet table "db") then
    let base :=
      match argNode table "this" with
      | some n => argStr n "this"
      | none => none
    match base with
    | none => (none, none)
    | some b =>
      let withDb :=
        match argNode table "db" with
        | some dbN =>
          match argStr dbN "this" with
          | some ds => some (ds ++ "." ++ b)
          | none => none
        | none => none
      match withDb with
      | none => (none, none)
      | some full1 =>
        let full2 :=
          if truthyOpt (argGet table "catalog") then
            match argNode table "catalog" with
            | some cN =>
              match argStr cN "this" with
              | some pj => some (pj ++ "." ++ full1)
              | none => none
            | none => none
          else some full1
        match full2 with
        | none => (none, none)
        | some full =>
          let al :=
            match argNode table "alias" with
            | some aN =>
              match argNode aN "this" with
              | some idN => argStr idN "this"
              | none => none
            | none => none
          (some full, al)
  else (none, none)

/-- `get_column_and_table_name_from_column` (functions.py lines 255-290).
Returns `(column_name, table_name)`; `table_name` is `None` for an
unqualified column, the bare table qualifier for `t.c`, the dataset
qualifier for `d.t.c`, and the dotted triple for `p.d.t.c`. -/
def get_column_and_table_name_from_column (column : Node) :
    Option String × Option String :=
  let column_name :=
    match argNode column "this" with
    | some n => argStr n "this"
    | none => none
  match argNode column "table" with
  | none => (column_name, none)
  | some tref =>
    -- `if table_name_val:` truthiness guard
    let tn1 : Option String :=
      match argStr tref "this" with
      | some s => if s = "" then none else some s
      | none => none
    let dbRef := argNode column "db"
    let catalogRef := argNode column "catalog"
    -- `if db_ref and not catalog_ref: ... if db_val:`
    let tn2 : Option String :=
      match dbRef, catalogRef with
      | some dbN, none =>
        (match argStr dbN "this" with
         | some dv => if dv = "" then tn1 else some dv
         | none => tn1)
      | _, _ => tn1
    -- `if catalog_ref: ... if catalog_val and db_val and table_val:`
    let tn3 : Option String :=
      match catalogRef with
      | some cN =>
        let cv := argStr cN "this"
        let dv := match dbRef with | some dbN => argStr dbN "this" | none => none
        let tv := argStr tref "this"
        (match cv, dv, tv with
         | some c, some d, some t =>
           if !(c = "") && !(d = "") && !(t = "") then some (c ++ "." ++ d ++ "." ++ t)
           else tn2
         | _, _, _ => tn2)
      | none => tn2
    (column_name, tn3)

/-- The keys of a catalog in insertion order. -/
def catKeys (cat : Catalog) : List String :=
  cat.map (fun kv => kv.1)

/-- `columns_dict[k]["total_rows"]` for a key known to be present. -/
def catRows (cat : Catalog) (k : String) : Int :=
  match alookup cat k with
  | some e => e.total_rows
  | none => 0

/-- The catalog keys a resolved full table name matches: substring match on
the `*`-stripped name for wildcard references, exact match otherwise
(functions.py lines 184-188). -/
def matchedCatalogKeys (cat : Catalog) (full : String) : List String :=
  if pyContains full "*" then
    (catKeys cat).filter (fun k => pyContains k (pyReplace full "*" ""))
  else
    (catKeys cat).filter (fun k => full = k)

/-- `total_rows` summed over the sorted matched keys (functions.py lines
190-193). -/
def sumRowsOfMatches (cat : Catalog) (full : String) : Int :=
  (strSort (matchedCatalogKeys cat full)).foldl (fun s k => s + catRows cat k) 0

/-- Last element of a list with a default (the Python loop over the sorted
key list leaves each per-key variable at the last iteration's value). -/
def lastD {α : Type} (l : List α) (d : α) : α :=
  match l with
  | [] => d
  | [x] => x
  | _ :: rest => lastD rest d

/-- One value of the dictionary built by `get_queried_tables`. -/
structure QTEntry where
  full_table_name : String
  total_rows : Int
  partitioned_column : Option String
  available_datetime_columns : Nat
  available_datetime_columns_list : List String
  is_alias : Bool
  table : String
  deriving DecidableEq, Repr

/-- The `Table` nodes scanned by `get_queried_tables`: every table under a
`Join` clause, then every table under a `From` clause (functions.py
lines 178-180). -/
def gqtTables (ast : Node) : List Node :=
  (findAll ast .join ++ findAll ast .fromK).foldl
    (fun acc c => acc ++ findAll c .table) []

/-- The entry `get_queried_tables` builds for an admitted reference with
resolved full name `full` (functions.py lines 190-222): the row counts of
the sorted matched keys are summed, while the partition/date-column/table
metadata variables keep the values of the *last* sorted key. -/
def gqtEntryFor (cat : Catalog) (full : String) (isAl : Bool) : QTEntry :=
  let sorted := strSort (matchedCatalogKeys cat full)
  let lastE :=
    match alookup cat (lastD sorted "") with
    | some e => e
    | none => ⟨0, none, [], ""⟩
  ⟨full, sumRowsOfMatches cat full, lastE.partitioned_column,
   lastE.datetime_columns.length, lastE.datetime_columns, isAl, lastE.table⟩

/-- The insertion of the full-name entry (functions.py lines 202-211). -/
def gqtQ1 (cat : Catalog) (row_count : Int)
    (queried : List (String × QTEntry)) (full : String) :
    List (String × QTEntry) :=
  -- `if full_table_name not in queried_tables and total_rows >= row_count:`
  if (alookup queried full).isNone
      && decide (sumRowsOfMatches cat full ≥ row_count) then
    queried ++ [(full, gqtEntryFor cat full false)]
  else queried

/-- The body of the per-table loop of `get_queried_tables` (functions.py
lines 181-222, with `gqtQ1` as the full-name insertion): admit the qualified
reference (and its alias) when the catalog matches and the summed row count
reaches the threshold. -/
def gqtStep (cat : Catalog) (row_count : Int)
    (queried : List (String × QTEntry)) (t : Node) : List (String × QTEntry) :=
  if truthyOpt (argGet t "db") then
    match get_alias_and_table_name_from_table t with
    | (some full, al) =>
      if (matchedCatalogKeys cat full).isEmpty then queried
      else
        match al with
        | some a =>
          -- `if alias:` (truthiness) then `if alias not in queried_tables and ...`
          if !(a = "") && (alookup (gqtQ1 cat row_count queried full) a).isNone
              && decide (sumRowsOfMatches cat full ≥ row_count) then
            gqtQ1 cat row_count queried full ++ [(a, gqtEntryFor cat full true)]
          else gqtQ1 cat row_count queried full
        | none => gqtQ1 cat row_count queried full
    | (none, _) => queried
  else queried

/-- `get_queried_tables` (functions.py lines 161-223) with its three
parameters `(ast, columns_dict, row_count)`; `row_count` has **no default
value** in this version of functions.py. -/
def get_queried_tables (ast : Node) (columnsDict : Catalog) (row_count : Int) :
    List (String × QTEntry) :=
  (gqtTables ast).foldl (gqtStep columnsDict row_count) []

/-! ## antipatterns.py: the two rules that call `get_queried_tables` with two
arguments

`check_big_table_no_date` (antipatterns.py line 364) and
`check_unpartitioned_tables` (antipatterns.py line 684) both execute
`functions.get_queried_tables(ast, columns_dict)`.  In this functions.py the
signature is `get_queried_tables(ast, columns_dict, row_count)` with no
default for `row_count` (the legacy top-level duplicate still has
`row_count=large_table_row_count`, and `check_distinct_on_big_table` /
`check_count_distinct_on_big_table` pass the threshold explicitly).  A
Python call that omits a required positional argument raises `TypeError`
*before* the callee's body runs, so both rules raise on their first
statement, on every input; the remainder of their bodies is unreachable and
is therefore not reproduced here. -/

/-- The `TypeError` message Python produces for the two-argument call. -/
def gqtMissingArgMsg : String :=
  "get_queried_tables() missing 1 required positional argument: 'row_count'"

/-- `check_big_table_no_date` (antipatterns.py lines 331-674).  Its first
executable statement, `functions.get_queried_tables(ast, columns_dict)`
(line 364), raises `TypeError`; nothing later in the body can run. -/
def check_big_table_no_date (ast : Node) (columnsDict : Catalog) :
    Except PyErr (Bool × List String) :=
  .error (.typeError gqtMissingArgMsg)

/-- `check_unpartitioned_tables` (antipatterns.py lines 677-690).  Its first
statement, `functions.get_queried_tables(ast, columns_dict)` (line 684),
raises `TypeError`; the loop below it can never run. -/
def check_unpartitioned_tables (ast : Node) (columnsDict : Catalog) :
    Except PyErr (Bool × List String) :=
  .error (.typeError gqtMissingArgMsg)

/-- C1: the claim says each rule returns its `(bool, list)` verdict without
raising for every parsed statement and catalog; on this code
`check_big_table_no_date` and `check_unpartitioned_tables` instead raise
`TypeError` on *every* input, because they call `get_queried_tables` with
two positional arguments while its third parameter `row_count` has no
default.  (The `Job.check_antipatterns` try/except then logs the error and
leaves the job attributes untouched.) -/
theorem C1_rules_always_raise (ast : Node) (columnsDict : Catalog) :
    check_big_table_no_date ast columnsDict = .error (.typeError gqtMissingArgMsg) ∧
    check_unpartitioned_tables ast columnsDict = .error (.typeError gqtMissingArgMsg) ∧
    (∀ v : Bool × List String, check_big_table_no_date ast columnsDict ≠ .ok v) ∧
    (∀ v : Bool × List String, check_unpartitioned_tables ast columnsDict ≠ .ok v) :=
  ⟨rfl, rfl, fun _ h => Except.noConfusion h, fun _ h => Except.noConfusion h⟩

/-! ## Concrete expression trees

Smart constructors for the node shapes sqlglot's BigQuery parser produces. -/

/-- `Identifier(this=s, quoted=False)`. -/
def identN (s : String) : Node :=
  .mk .identifier [("this", .vs s), ("quoted", .vb false)]

/-- `Literal(this=v, is_string=b)`. -/
def litN (v : String) (isString : Bool) : Node :=
  .mk .literal [("this", .vs v), ("is_string", .vb isString)]

/-- `Column(this=Identifier(name))` — an unqualified column reference. -/
def colN (name : String) : Node :=
  .mk .column [("this", .vn (identN name))]

/-- `Column(this=Identifier(name), table=Identifier(tbl))` — `tbl.name`. -/
def colT (tbl name : String) : Node :=
  .mk .column [("this", .vn (identN name)), ("table", .vn (identN tbl))]

/-- `Table(this=Identifier(name), db=Identifier(ds), catalog=Identifier(proj))`
— a fully qualified `proj.ds.name` reference. -/
def tbl3 (proj ds name : String) : Node :=
  .mk .table [("this", .vn (identN name)), ("db", .vn (identN ds)),
    ("catalog", .vn (identN proj))]

/-- A bare `Table(this=Identifier(name))` reference (a CTE usage or an
unqualified table). -/
def tbl1 (name : String) : Node :=
  .mk .table [("this", .vn (identN name))]

/-- `TableAlias(this=Identifier(a))`. -/
def tblAliasN (a : String) : Node :=
  .mk .tableAlias [("this", .vn (identN a))]

/-- Attach an `alias=TableAlias(...)` argument to a table reference. -/
def withAlias (t : Node) (a : String) : Node :=
  .mk .table (t.args ++ [("alias", .vn (tblAliasN a))])

/-- `From(this=t)`. -/
def fromN (t : Node) : Node :=
  .mk .fromK [("this", .vn t)]

/-- `Join(this=t, on=cond)`. -/
def joinN (t : Node) (cond : Node) : Node :=
  .mk .join [("this", .vn t), ("on", .vn cond)]

/-- `Where(this=cond)`. -/
def whereN (cond : Node) : Node :=
  .mk .whereK [("this", .vn cond)]

/-- `EQ(this=l, expression=r)`. -/
def eqN (l r : Node) : Node :=
  .mk .eq [("this", .vn l), ("expression", .vn r)]

/-- `And(this=l, expression=r)` (sqlglot parses `a AND b` left-nested). -/
def andN (l r : Node) : Node :=
  .mk .andK [("this", .vn l), ("expression", .vn r)]

/-- `CTE(this=body, alias=TableAlias(Identifier(name)))`. -/
def cteN (body : Node) (name : String) : Node :=
  .mk .cte [("this", .vn body), ("alias", .vn (tblAliasN name))]

/-- `With(expressions=[...])`. -/
def withNode (ctes : List Node) : Node :=
  .mk .withK [("expressions", .vlist ctes)]

/-- `cte.alias`: the aliased name of a CTE (used by the source as
`cte.alias`, e.g. antipatterns.py lines 155 and 367). -/
def cteAlias (cte : Node) : String :=
  match argNode cte "alias" with
  | some ta =>
    (match argNode ta "this" with
     | some idN => (argStr idN "this").getD ""
     | none => "")
  | none => ""

/-- `[cte.alias for cte in ast.find_all(exp.CTE)]` (antipatterns.py line
367). -/
def cteAliases (ast : Node) : List String :=
  (findAll ast .cte).map cteAlias

/-- Lookup distributes over appended association lists (first list wins). -/
theorem alookup_append {α : Type} (xs ys : List (String × α)) (k : String) (v : α)
    (h : alookup (xs ++ ys) k = some v) :
    alookup xs k = some v ∨ alookup ys k = some v := by
  induction xs with
  | nil => exact Or.inr h
  | cons p rest ih =>
    obtain ⟨a, b⟩ := p
    by_cases ha : a = k
    · simp [alookup, ha] at h ⊢
      exact Or.inl h
    · simp only [List.cons_append, alookup, if_neg ha] at h ⊢
      exact ih h


/-- Reading a key from a one-element-extended association list: either the
old list answers, or the key and value are the appended ones. -/
theorem alookup_snoc_cases {α : Type} (q : List (String × α)) (k0 : String)
    (v0 : α) (k : String) (v : α)
    (h : alookup (q ++ [(k0, v0)]) k = some v) :
    alookup q k = some v ∨ (k = k0 ∧ v = v0) := by
  rcases alookup_append q [(k0, v0)] k v h with h1 | h2
  · exact Or.inl h1
  · by_cases hk : k0 = k
    · right
      simp [alookup, hk] at h2
      exact ⟨hk.symm, h2.symm⟩
    · simp [alookup, hk] at h2

/-- The admission condition of `get_queried_tables`: the key `name` can only
enter the result as the resolved full name, or as the declared (non-empty)
alias, of a `db`-qualified table reference `t` whose full name matches the
catalog and whose summed row count reaches the threshold. -/
def gqtAdmits (cat : Catalog) (rc : Int) (t : Node) (name : String)
    (e : QTEntry) : Prop :=
  truthyOpt (argGet t "db") = true ∧
  ∃ full al, get_alias_and_table_name_from_table t = (some full, al) ∧
    matchedCatalogKeys cat full ≠ [] ∧
    e.full_table_name = full ∧
    e.total_rows = sumRowsOfMatches cat full ∧
    e.total_rows ≥ rc ∧
    ((name = full ∧ e.is_alias = false) ∨
     (al = some name ∧ name ≠ "" ∧ e.is_alias = true))

/-- Entries readable after the full-name insertion step. -/
theorem gqtQ1_mem (cat : Catalog) (rc : Int) (acc : List (String × QTEntry))
    (full : String) (name : String) (e : QTEntry)
    (h : alookup (gqtQ1 cat rc acc full) name = some e) :
    alookup acc name = some e ∨
    (name = full ∧ e = gqtEntryFor cat full false ∧
      sumRowsOfMatches cat full ≥ rc) := by
  unfold gqtQ1 at h
  split at h
  next hcond =>
    rcases alookup_snoc_cases _ _ _ _ _ h with h1 | ⟨hk, hv⟩
    · exact Or.inl h1
    · exact Or.inr ⟨hk, hv, of_decide_eq_true (Bool.and_eq_true_iff.mp hcond).2⟩
  next => exact Or.inl h

/-- Any entry readable from the accumulator after one `gqtStep` was either
already present or was admitted by the current table node. -/
theorem gqtStep_mem (cat : Catalog) (rc : Int) (acc : List (String × QTEntry))
    (t : Node) (name : String) (e : QTEntry)
    (h : alookup (gqtStep cat rc acc t) name = some e) :
    alookup acc name = some e ∨ gqtAdmits cat rc t name e := by
  unfold gqtStep at h
  split at h
  next hdb =>
    split at h
    next full al hg =>
      split at h
      next hemp => exact Or.inl h
      next hemp =>
        have hne : matchedCatalogKeys cat full ≠ [] := by
          simpa [List.isEmpty_iff] using hemp
        have hFull : alookup (gqtQ1 cat rc acc full) name = some e →
            alookup acc name = some e ∨ gqtAdmits cat rc t name e := by
          intro hq
          rcases gqtQ1_mem cat rc acc full name e hq with h1 | ⟨hk, hv, hrow⟩
          · exact Or.inl h1
          · refine Or.inr ⟨hdb, full, al, hg, hne, ?_, ?_, ?_, Or.inl ⟨hk, ?_⟩⟩ <;>
              simp [hv, gqtEntryFor, hrow]
        cases al with
        | some a =>
          dsimp only at h
          split at h
          next hcond =>
            rcases alookup_snoc_cases _ _ _ _ _ h with h1 | ⟨hk, hv⟩
            · exact hFull h1
            · have hrow : sumRowsOfMatches cat full ≥ rc :=
                of_decide_eq_true (Bool.and_eq_true_iff.mp hcond).2
              have hane : a ≠ "" := by
                intro hEq
                subst hEq
                simp at hcond
              refine Or.inr ⟨hdb, full, some a, hg, hne, ?_, ?_, ?_,
                Or.inr ⟨by rw [hk], by simpa [hk] using hane, ?_⟩⟩ <;>
                simp [hv, gqtEntryFor, hrow]
          next => exact hFull h
        | none => exact hFull h
    next hg => exact Or.inl h
  next hdb => exact Or.inl h

/-- Folding `gqtStep` over a table list only ever adds admitted entries. -/
theorem gqt_fold_mem (cat : Catalog) (rc : Int) :
    ∀ (l : List Node) (acc : List (String × QTEntry)) (name : String)
      (e : QTEntry),
      alookup (l.foldl (gqtStep cat rc) acc) name = some e →
      alookup acc name = some e ∨ ∃ t ∈ l, gqtAdmits cat rc t name e := by
  intro l
  induction l with
  | nil => exact fun acc name e h => Or.inl h
  | cons t rest ih =>
    intro acc name e h
    simp only [List.foldl_cons] at h
    rcases ih _ name e h with h1 | ⟨t', ht', hadm⟩
    · rcases gqtStep_mem cat rc acc t name e h1 with h2 | hadm
      · exact Or.inl h2
      · exact Or.inr ⟨t, List.mem_cons_self t rest, hadm⟩
    · exact Or.inr ⟨t', List.mem_cons_of_mem t ht', hadm⟩

/-- A one-table catalog: `proj.ds.t` with 5000 rows, partition column `dt`. -/
def c4Cat : Catalog := [("proj.ds.t", ⟨5000, some "dt", ["dt"], "t"⟩)]

/-- `WITH x AS (SELECT 1 FROM proj.ds.u) SELECT b FROM proj.ds.t AS x`: the
name `x` is a CTE alias *and* the declared alias of a qualified catalog
table. -/
def c4Ast : Node :=
  .mk .select
    [("with", .vn (withNode [cteN (.mk .select
        [("expressions", .vlist [litN "1" false]),
         ("from", .vn (fromN (tbl3 "proj" "ds" "u")))]) "x"])),
     ("expressions", .vlist [colN "b"]),
     ("from", .vn (fromN (withAlias (tbl3 "proj" "ds" "t") "x")))]

/-- `SELECT b FROM proj.ds.t` with no CTE and no alias. -/
def c4SimpleAst : Node :=
  .mk .select
    [("expressions", .vlist [colN "b"]),
     ("from", .vn (fromN (tbl3 "proj" "ds" "t")))]

/-- C4, counterexample.  The claim says a name defined as a CTE alias never
maps to a catalog-backed entry, even when a catalog entry of the same name
exists.  For `WITH x AS (SELECT 1 FROM proj.ds.u) SELECT b FROM
proj.ds.t AS x` the name `x` is a CTE alias, yet `get_queried_tables` maps
`x` to a catalog-backed entry, because the same name is also the declared
alias of the admitted qualified reference `proj.ds.t`. -/
theorem C4_counterexample :
    "x" ∈ cteAliases c4Ast ∧
    alookup (get_queried_tables c4Ast c4Cat 1000) "x" =
      some ⟨"proj.ds.t", 5000, some "dt", 1, ["dt"], true, "t"⟩ := by
  decide

/-- C4, amended.  A table reference is admitted into the symbol table built
by `get_queried_tables` only if it carries a dataset (`db`) qualifier,
matches the catalog (exactly, or by substring for wildcard names), and has
summed `total_rows` at least the row-count threshold; every key of the
result is either the resolved full name or the declared non-empty alias of
such a reference.  Consequently a CTE alias or an unqualified table name
never enters the table via its own reference — it can collide into the table
only by also being used as the declared alias of an admitted qualified
reference (the counterexample's situation). -/
theorem C4_amended (ast : Node) (cat : Catalog) (rc : Int) (name : String)
    (e : QTEntry)
    (h : alookup (get_queried_tables ast cat rc) name = some e) :
    ∃ t ∈ gqtTables ast, gqtAdmits cat rc t name e := by
  rcases gqt_fold_mem cat rc (gqtTables ast) [] name e h with h1 | h2
  · simp [alookup] at h1
  · exact h2

/-- Witness for `C4_amended`: the concrete query `SELECT b FROM proj.ds.t`
admits the key `proj.ds.t`, and the invariant produces its source table
node. -/
theorem C4_amended_witness :
    ∃ t ∈ gqtTables c4SimpleAst,
      gqtAdmits c4Cat 1000 t "proj.ds.t"
        ⟨"proj.ds.t", 5000, some "dt", 1, ["dt"], false, "t"⟩ :=
  C4_amended c4SimpleAst c4Cat 1000 "proj.ds.t"
    ⟨"proj.ds.t", 5000, some "dt", 1, ["dt"], false, "t"⟩ (by decide)

/-! ## antipatterns.py: `check_multiple_cte_reference` -/

/-- The rendered name of an `Identifier` node. -/
def identText (n : Node) : String :=
  (argStr n "this").getD ""

/-- `str(node)`: sqlglot renders the expression back to SQL.  The embedding
renders the reference shapes that occur as the `this` of a `From` clause
(identifiers and table references with optional `db`/`catalog`/`alias`);
other kinds — which never equal a CTE alias key in the analysed statements —
render to an opaque placeholder. -/
def sqlStr (n : Node) : String :=
  match n.kind with
  | .identifier => identText n
  | .table =>
    let base :=
      match argNode n "this" with
      | some i => identText i
      | none => ""
    let withDb :=
      match argNode n "db" with
      | some d => identText d ++ "." ++ base
      | none => base
    let withCat :=
      match argNode n "catalog" with
      | some c => identText c ++ "." ++ withDb
      | none => withDb
    match argNode n "alias" with
    | some ta =>
      withCat ++ " AS " ++
        (match argNode ta "this" with
         | some i => identText i
         | none => "")
    | none => withCat
  | _ => "<expr>"

/-- Python `str(x)` of an argument value (`str(None) = "None"`). -/
def pyStrOfAVal : AVal → String
  | .vn n => sqlStr n
  | .vs s => s
  | .vb b => if b then "True" else "False"
  | .vlist _ => "<list>"

/-- `str(node.args.get(name))` including the `None` case. -/
def pyStrOpt : Option AVal → String
  | none => "None"
  | some v => pyStrOfAVal v

/-- In-place value update of the first matching key (Python
`d[k] = v` for an existing key keeps its position). -/
def aupdate {α : Type} : List (String × α) → String → α → List (String × α)
  | [], _, _ => []
  | (k, v) :: rest, key, nv =>
    if k = key then (k, nv) :: rest else (k, v) :: aupdate rest key nv

/-- The dict comprehension of antipatterns.py lines 154-156:
`{cte.alias: 0 for cte in ast.find_all(exp.CTE)
  if len(list(cte.find_all(exp.From))) > 0}` (a duplicate alias re-writes
the same value `0`, so first-insertion order is kept). -/
def cmcrInitStep (acc : List (String × Nat)) (cte : Node) :
    List (String × Nat) :=
  if (findAll cte .fromK).length > 0 then
    if (alookup acc (cteAlias cte)).isSome then acc
    else acc ++ [(cteAlias cte, 0)]
  else acc

/-- The whole comprehension as a fold over the CTE nodes. -/
def cmcrInit (ast : Node) : List (String × Nat) :=
  (findAll ast .cte).foldl cmcrInitStep []

/-- The `Select` statements the counting loop of antipatterns.py lines
158-159 visits: every select inside every CTE node, in traversal order
(the main query's selects are *not* visited). -/
def cmcrSelects (ast : Node) : List Node :=
  (findAll ast .cte).foldl (fun acc cte => acc ++ findAll cte .select) []

/-- `str(from_statement.args.get("this"))` for a select with a `From`
clause, `none` when the select has no `From` (the loop `continue`s). -/
def fromTableOf (s : Node) : Option String :=
  match argNode s "from" with
  | none => none
  | some f => some (pyStrOpt (argGet f "this"))

/-- One iteration of the counting loop (antipatterns.py lines 159-168). -/
def cmcrStep (vals : List (String × Nat)) (status : Bool) (s : Node) :
    List (String × Nat) × Bool :=
  match fromTableOf s with
  | none => (vals, status)
  | some ft =>
    match alookup vals ft with
    | none => (vals, status)
    | some c => (aupdate vals ft (c + 1), status || (c + 1 == 2))

/-- `check_multiple_cte_reference` (antipatterns.py lines 149-170). -/
def check_multiple_cte_reference (ast : Node) : Bool :=
  if (cmcrInit ast).length > 0 then
    ((cmcrSelects ast).foldl
      (fun (p : List (String × Nat) × Bool) s => cmcrStep p.1 p.2 s)
      (cmcrInit ast, false)).2
  else false

/-- How often `name` occurs as the `From`-clause source of a select inside a
CTE definition. -/
def cmcrRefCount (ast : Node) (name : String) : Nat :=
  (cmcrSelects ast).countP (fun s => fromTableOf s == some name)

/-- Updating a present key is visible at that key. -/
theorem alookup_aupdate_self {α : Type} (l : List (String × α)) (k : String)
    (v : α) (c : α) (h : alookup l k = some c) :
    alookup (aupdate l k v) k = some v := by
  induction l with
  | nil => simp [alookup] at h
  | cons p rest ih =>
    obtain ⟨a, b⟩ := p
    by_cases ha : a = k
    · simp [alookup, aupdate, ha]
    · simp only [alookup, aupdate, if_neg ha] at h ⊢
      exact ih h

/-- Updating one key leaves every other key unchanged. -/
theorem alookup_aupdate_ne {α : Type} (l : List (String × α)) (k k' : String)
    (v : α) (hne : k' ≠ k) :
    alookup (aupdate l k v) k' = alookup l k' := by
  induction l with
  | nil => rfl
  | cons p rest ih =>
    obtain ⟨a, b⟩ := p
    by_cases ha : a = k
    · subst ha
      simp only [aupdate, if_pos rfl, alookup]
      rw [if_neg (fun h => hne h.symm), if_neg (fun h => hne h.symm)]
    · simp only [aupdate, if_neg ha, alookup]
      by_cases ha' : a = k'
      · rw [if_pos ha', if_pos ha']
      · rw [if_neg ha', if_neg ha']
        exact ih

/-- Unfolding one step of the counting fold. -/
theorem cmcr_foldl_cons (vals : List (String × Nat)) (status : Bool)
    (s : Node) (rest : List Node) :
    List.foldl (fun p x => cmcrStep p.1 p.2 x) (vals, status) (s :: rest) =
    List.foldl (fun p x => cmcrStep p.1 p.2 x) (cmcrStep vals status s) rest :=
  rfl

/-- The counting loop of `check_multiple_cte_reference`: the status flag ends
`true` exactly when it started `true` or some tracked key's counter, starting
below 2, reaches 2 through the remaining increments. -/
theorem cmcr_fold_spec (sel : List Node) :
    ∀ (vals : List (String × Nat)) (status : Bool),
      ((sel.foldl (fun p s => cmcrStep p.1 p.2 s) (vals, status)).2 = true ↔
        (status = true ∨ ∃ k c, alookup vals k = some c ∧ c < 2 ∧
          2 ≤ c + sel.countP (fun s => fromTableOf s == some k))) := by
  induction sel with
  | nil =>
    intro vals status
    simp only [List.foldl_nil, List.countP_nil]
    constructor
    · intro h
      exact Or.inl h
    · intro h
      rcases h with h | ⟨k, c, _, hlt, hge⟩
      · exact h
      · omega
  | cons s rest ih =>
    intro vals status
    rw [cmcr_foldl_cons]
    cases hft : fromTableOf s with
    | none =>
      have hstep : cmcrStep vals status s = (vals, status) := by
        simp [cmcrStep, hft]
      rw [hstep, ih vals status]
      have hcnt : ∀ k : String,
          (s :: rest).countP (fun x => fromTableOf x == some k) =
            rest.countP (fun x => fromTableOf x == some k) := by
        intro k
        simp [List.countP_cons, hft]
      constructor
      · rintro (h | ⟨k, c, hl, hlt, hge⟩)
        · exact Or.inl h
        · exact Or.inr ⟨k, c, hl, hlt, by rw [hcnt k]; exact hge⟩
      · rintro (h | ⟨k, c, hl, hlt, hge⟩)
        · exact Or.inl h
        · exact Or.inr ⟨k, c, hl, hlt, by rw [← hcnt k]; exact hge⟩
    | some ft =>
      have hcnt : ∀ k : String,
          (s :: rest).countP (fun x => fromTableOf x == some k) =
            rest.countP (fun x => fromTableOf x == some k)
              + (if ft = k then 1 else 0) := by
        intro k
        by_cases hk : ft = k <;> simp [List.countP_cons, hft, hk]
      cases hlk : alookup vals ft with
      | none =>
        have hstep : cmcrStep vals status s = (vals, status) := by
          simp [cmcrStep, hft, hlk]
        rw [hstep, ih vals status]
        constructor
        · rintro (h | ⟨k, c, hl, hlt, hge⟩)
          · exact Or.inl h
          · refine Or.inr ⟨k, c, hl, hlt, ?_⟩
            rw [hcnt k]
            omega
        · rintro (h | ⟨k, c, hl, hlt, hge⟩)
          · exact Or.inl h
          · have hkne : ft ≠ k := by
              intro hEq
              rw [hEq, hl] at hlk
              cases hlk
            rw [hcnt k, if_neg hkne] at hge
            exact Or.inr ⟨k, c, hl, hlt, by omega⟩
      | some c =>
        have hstep : cmcrStep vals status s =
            (aupdate vals ft (c + 1), status || (c + 1 == 2)) := by
          simp [cmcrStep, hft, hlk]
        rw [hstep, ih (aupdate vals ft (c + 1)) (status || (c + 1 == 2))]
        constructor
        · rintro (h | ⟨k, c', hl, hlt, hge⟩)
          · rcases Bool.or_eq_true_iff.mp h with h1 | h2
            · exact Or.inl h1
            · have hc1 : c + 1 = 2 := by simpa using h2
              refine Or.inr ⟨ft, c, hlk, by omega, ?_⟩
              rw [hcnt ft, if_pos rfl]
              omega
          · by_cases hk : k = ft
            · subst hk
              rw [alookup_aupdate_self vals k (c + 1) c hlk] at hl
              have hc' : c' = c + 1 := by
                injection hl with h'
                exact h'.symm
              subst hc'
              refine Or.inr ⟨k, c, hlk, by omega, ?_⟩
              rw [hcnt k, if_pos rfl]
              omega
            · rw [alookup_aupdate_ne vals ft k (c + 1) hk] at hl
              refine Or.inr ⟨k, c', hl, hlt, ?_⟩
              rw [hcnt k, if_neg (fun h => hk h.symm)]
              omega
        · rintro (h | ⟨k, c', hl, hlt, hge⟩)
          · exact Or.inl (by simp [h])
          · by_cases hk : k = ft
            · subst hk
              rw [hlk] at hl
              have hc' : c' = c := by
                injection hl with h'
                exact h'.symm
              rw [hc'] at hlt hge
              rw [hcnt k, if_pos rfl] at hge
              by_cases hc1 : c + 1 = 2
              · exact Or.inl (by simp [hc1])
              · have hc0 : c = 0 := by omega
                subst hc0
                refine Or.inr ⟨k, 1, alookup_aupdate_self vals k 1 0 hlk, by omega, ?_⟩
                omega
            · rw [hcnt k, if_neg (fun h => hk h.symm)] at hge
              refine Or.inr ⟨k, c', ?_, hlt, by omega⟩
              rw [alookup_aupdate_ne vals ft k (c + 1) hk]
              exact hl

/-- A key readable on the left of an append stays readable. -/
theorem alookup_append_left {α : Type} (xs ys : List (String × α))
    (k : String) (v : α) (h : alookup xs k = some v) :
    alookup (xs ++ ys) k = some v := by
  induction xs with
  | nil => cases h
  | cons p rest ih =>
    obtain ⟨a, b⟩ := p
    by_cases ha : a = k
    · simpa [alookup, ha] using h
    · simp only [alookup, if_neg ha, List.cons_append] at h ⊢
      exact ih h

/-- Appending a fresh key makes it readable. -/
theorem alookup_append_fresh {α : Type} (xs : List (String × α))
    (k : String) (v : α) (h : alookup xs k = none) :
    alookup (xs ++ [(k, v)]) k = some v := by
  induction xs with
  | nil => simp [alookup]
  | cons p rest ih =>
    obtain ⟨a, b⟩ := p
    by_cases ha : a = k
    · simp [alookup, ha] at h
    · simp only [alookup, if_neg ha, List.cons_append] at h ⊢
      exact ih h

/-- One comprehension step keeps every existing binding. -/
theorem cmcrInitStep_pres (acc : List (String × Nat)) (cte : Node)
    (k : String) (c : Nat) (h : alookup acc k = some c) :
    alookup (cmcrInitStep acc cte) k = some c := by
  unfold cmcrInitStep
  split
  · split
    · exact h
    · exact alookup_append_left _ _ _ _ h
  · exact h

/-- The comprehension fold keeps every existing binding. -/
theorem cmcrInit_fold_pres (l : List Node) :
    ∀ (acc : List (String × Nat)) (k : String) (c : Nat),
      alookup acc k = some c → alookup (l.foldl cmcrInitStep acc) k = some c := by
  induction l with
  | nil => exact fun acc k c h => h
  | cons cte rest ih =>
    intro acc k c h
    simp only [List.foldl_cons]
    exact ih _ k c (cmcrInitStep_pres acc cte k c h)

/-- Every binding of the comprehension fold is an existing binding or the
zero-initialised alias of a `From`-containing CTE of the list. -/
theorem cmcrInit_fold_mem (l : List Node) :
    ∀ (acc : List (String × Nat)) (k : String) (c : Nat),
      alookup (l.foldl cmcrInitStep acc) k = some c →
      alookup acc k = some c ∨
        (c = 0 ∧ ∃ cte ∈ l, (findAll cte .fromK).length > 0 ∧ cteAlias cte = k) := by
  induction l with
  | nil => exact fun acc k c h => Or.inl h
  | cons cte rest ih =>
    intro acc k c h
    simp only [List.foldl_cons] at h
    rcases ih _ k c h with h1 | ⟨hc0, cte', hmem, hf, hk⟩
    · unfold cmcrInitStep at h1
      split at h1
      next hf =>
        split at h1
        next => exact Or.inl h1
        next =>
          rcases alookup_snoc_cases _ _ _ _ _ h1 with h2 | ⟨hk, hv⟩
          · exact Or.inl h2
          · exact Or.inr ⟨hv, cte, List.mem_cons_self cte rest, hf, hk.symm⟩
      next => exact Or.inl h1
    · exact Or.inr ⟨hc0, cte', List.mem_cons_of_mem cte hmem, hf, hk⟩

/-- After one comprehension step a `From`-containing CTE's alias is bound. -/
theorem cmcrInitStep_self (acc : List (String × Nat)) (cte : Node)
    (hf : (findAll cte .fromK).length > 0) :
    ∃ c, alookup (cmcrInitStep acc cte) (cteAlias cte) = some c := by
  unfold cmcrInitStep
  rw [if_pos hf]
  by_cases hs : (alookup acc (cteAlias cte)).isSome
  · rw [if_pos hs]
    exact Option.isSome_iff_exists.mp hs
  · rw [if_neg hs]
    refine ⟨0, alookup_append_fresh _ _ _ ?_⟩
    exact Option.not_isSome_iff_eq_none.mp hs

/-- Every `From`-containing CTE of the list ends up bound by the
comprehension fold. -/
theorem cmcrInit_fold_complete (l : List Node) :
    ∀ (acc : List (String × Nat)) (cte : Node), cte ∈ l →
      (findAll cte .fromK).length > 0 →
      ∃ c, alookup (l.foldl cmcrInitStep acc) (cteAlias cte) = some c := by
  induction l with
  | nil => intro acc cte h; cases h
  | cons cte0 rest ih =>
    intro acc cte hmem hf
    simp only [List.foldl_cons]
    rcases List.mem_cons.mp hmem with rfl | hmem'
    · obtain ⟨c, hc⟩ := cmcrInitStep_self acc cte hf
      exact ⟨c, cmcrInit_fold_pres rest _ _ c hc⟩
    · exact ih _ cte hmem' hf

/-- The CTE body `SELECT x FROM t`. -/
def c5CteBody : Node :=
  .mk .select [("expressions", .vlist [colN "x"]), ("from", .vn (fromN (tbl1 "t")))]

/-- `WITH c AS (SELECT x FROM t) SELECT * FROM c JOIN c ON 1 = 1`:
the claim's own example, with `c` referenced twice in the main query. -/
def c5JoinAst : Node :=
  .mk .select
    [("with", .vn (withNode [cteN c5CteBody "c"])),
     ("expressions", .vlist [.mk .star []]),
     ("from", .vn (fromN (tbl1 "c"))),
     ("joins", .vlist [joinN (tbl1 "c") (eqN (litN "1" false) (litN "1" false))])]

/-- `WITH c AS (SELECT x FROM t) SELECT * FROM c`: a single reference. -/
def c5SingleAst : Node :=
  .mk .select
    [("with", .vn (withNode [cteN c5CteBody "c"])),
     ("expressions", .vlist [.mk .star []]),
     ("from", .vn (fromN (tbl1 "c")))]

/-- `WITH c AS (SELECT x FROM t), d AS (SELECT y FROM c),
e AS (SELECT z FROM c) SELECT 1`: `c` is the `From` source of two selects
that live inside CTE definitions. -/
def c5TrueAst : Node :=
  .mk .select
    [("with", .vn (withNode
       [cteN c5CteBody "c",
        cteN (.mk .select [("expressions", .vlist [colN "y"]),
          ("from", .vn (fromN (tbl1 "c")))]) "d",
        cteN (.mk .select [("expressions", .vlist [colN "z"]),
          ("from", .vn (fromN (tbl1 "c")))]) "e"])),
     ("expressions", .vlist [litN "1" false])]

/-- C5, counterexample.  The claim says `check_multiple_cte_reference`
returns `true` for `WITH c AS (SELECT x FROM t) SELECT * FROM c JOIN c
ON …`.  On the code the counting loop only iterates over selects found
*inside* CTE nodes (`for cte in ast.find_all(exp.CTE): for s in
cte.find_all(exp.Select)`), so the two references to `c` in the main query
are never counted and the rule returns `false`, even though `c` is a CTE
containing a `From`. -/
theorem C5_counterexample :
    (findAll (cteN c5CteBody "c") .fromK).length > 0 ∧
    check_multiple_cte_reference c5JoinAst = false := by
  decide

/-- C5, amended.  `check_multiple_cte_reference` counts only `From`-clause
references made by `Select` statements located inside CTE definitions: it
returns `true` exactly when some CTE that itself contains a `From` has its
alias appear as the `From` source of at least two such selects.  References
in the main query body (including `JOIN` sources) are never counted, so the
claim's `FROM c JOIN c` example yields `false`; a chain of CTEs reading from
the same CTE twice yields `true`; a single reference yields `false`. -/
theorem C5_amended :
    (∀ ast : Node, check_multiple_cte_reference ast = true ↔
      ∃ cte ∈ findAll ast .cte, (findAll cte .fromK).length > 0 ∧
        2 ≤ cmcrRefCount ast (cteAlias cte)) ∧
    check_multiple_cte_reference c5TrueAst = true ∧
    check_multiple_cte_reference c5SingleAst = false := by
  refine ⟨?_, by decide, by decide⟩
  intro ast
  unfold check_multiple_cte_reference
  by_cases hlen : (cmcrInit ast).length > 0
  · rw [if_pos hlen, cmcr_fold_spec]
    constructor
    · rintro (h | ⟨k, c, hl, hlt, hge⟩)
      · cases h
      · rcases cmcrInit_fold_mem _ _ k c hl with h0 | ⟨hc0, cte, hcte, hf, hk⟩
        · cases h0
        · subst hc0
          refine ⟨cte, hcte, hf, ?_⟩
          unfold cmcrRefCount
          rw [hk]
          omega
    · rintro ⟨cte, hcte, hf, hge⟩
      right
      obtain ⟨c, hc⟩ := cmcrInit_fold_complete _ [] cte hcte hf
      rcases cmcrInit_fold_mem _ [] (cteAlias cte) c hc with h0 | ⟨hc0, _⟩
      · cases h0
      · subst hc0
        refine ⟨cteAlias cte, 0, hc, by omega, ?_⟩
        unfold cmcrRefCount at hge
        omega
  · rw [if_neg hlen]
    constructor
    · intro h
      cases h
    · rintro ⟨cte, hcte, hf, _⟩
      exfalso
      obtain ⟨c, hc⟩ := cmcrInit_fold_complete _ [] cte hcte hf
      apply hlen
      rw [show List.foldl cmcrInitStep [] (findAll ast Kind.cte) = cmcrInit ast from rfl]
        at hc
      cases hInit : cmcrInit ast with
      | nil => rw [hInit] at hc; cases hc
      | cons a l => simp

/-! ## functions.py `get_partitioned_tables` and antipatterns.py
`check_partition_used` -/

/-- One value of the dictionary built by `get_partitioned_tables`. -/
structure PartInfo where
  full_table_name : String
  qualified : Bool
  -- the source key is "alias"; `alias` is a reserved word in Lean
  aliasName : Option String
  partition_column : String
  deriving DecidableEq, Repr

/-- `columns_dict[k]["partitioned_column"]` for a key drawn from the
filtered `partitioned_tables` list (always a non-empty string there). -/
def partColOfKey (cat : Catalog) (k : String) : String :=
  match alookup cat k with
  | some e => e.partitioned_column.getD ""
  | none => ""

/-- The two conditional insertions shared by both branches of the
`partitioned_tables` scan (functions.py lines 317-334 and 336-351): the full
name with `qualified=True`, then the truthy alias with `qualified=False`,
each only when not yet present. -/
def gptInsertBoth (used : List (String × PartInfo)) (full : String)
    (al : Option String) (pc : String) : List (String × PartInfo) :=
  let used1 :=
    if (alookup used full).isSome then used
    else used ++ [(full, ⟨full, true, al, pc⟩)]
  match al with
  | some a =>
    if !(a = "") then
      (if (alookup used1 a).isSome then used1
       else used1 ++ [(a, ⟨full, false, some a, pc⟩)])
    else used1
  | none => used1

/-- The `for k in partitioned_tables:` loop of `get_partitioned_tables`
(functions.py lines 315-351): wildcard names match by substring and `break`
on the first hit; exact names match by equality and keep scanning. -/
def gptScanKeys (cat : Catalog) (used : List (String × PartInfo))
    (full : String) (al : Option String) :
    List String → List (String × PartInfo)
  | [] => used
  | k :: rest =>
    if !(full = "") && pyContains full "*" then
      (if pyContains k (pyReplace full "*" "") then
        gptInsertBoth used full al (partColOfKey cat k)
      else gptScanKeys cat used full al rest)
    else if !(full = "") && (full = k) then
      gptScanKeys cat (gptInsertBoth used full al (partColOfKey cat k)) full al rest
    else gptScanKeys cat used full al rest

/-- `get_partitioned_tables` (functions.py lines 293-352). -/
def get_partitioned_tables (ast : Node) (columnsDict : Catalog) :
    List (String × PartInfo) :=
  let partitioned_tables :=
    (columnsDict.filter (fun kv => pyStrOptTruthy kv.2.partitioned_column)).map
      (fun kv => kv.1)
  let tables :=
    (findAll ast .fromK ++ findAll ast .join).foldl
      (fun acc c => acc ++ findAll c .table) []
  tables.foldl
    (fun used t =>
      if truthyOpt (argGet t "db") then
        match get_alias_and_table_name_from_table t with
        | (some full, al) => gptScanKeys columnsDict used full al partitioned_tables
        | (none, _) => used
      else used) []

/-- The columns `check_partition_used` inspects
(antipatterns.py lines 188-196): all columns under `Join` clauses, then all
columns under `Where` clauses. -/
def cpuColumns (ast : Node) : List Node :=
  ((findAll ast .join).foldl (fun acc j => acc ++ findAll j .column) []) ++
  ((findAll ast .whereK).foldl (fun acc w => acc ++ findAll w .column) [])

/-- Python `set.add` on the insertion-ordered model of
`tables_with_partitions_used` (only membership and insertion are ever
used). -/
def setAdd (l : List String) (x : String) : List String :=
  if l.contains x then l else l ++ [x]

/-- The `if not table_name:` fallback (antipatterns.py lines 210-220): scan
the tracked tables in order and `break` at the first partition-column name
match. -/
def cpuFallbackBreak (used : List (String × PartInfo)) (cn : String)
    (acc : List String) : List String :=
  match used with
  | [] => acc
  | (_, v) :: rest =>
    if !(v.partition_column = "") then
      (if pyLower cn = pyLower v.partition_column then
        setAdd acc v.full_table_name
      else cpuFallbackBreak rest cn acc)
    else cpuFallbackBreak rest cn acc

/-- The `else:` branch (antipatterns.py lines 221-225), reached when the
column *does* carry a table qualifier: match the column name against *every*
tracked table's partition column, without `break`. -/
def cpuFallbackAll (used : List (String × PartInfo)) (cn : String)
    (acc : List String) : List String :=
  used.foldl
    (fun a kv =>
      if pyLower cn = pyLower kv.2.partition_column then
        setAdd a kv.2.full_table_name
      else a) acc

/-- Processing of one column of `columns_from_join + columns_from_where`
(antipatterns.py lines 196-225).  The specific-table lookup tests membership
on the `*`-stripped name but subscripts with the raw name, which raises
`KeyError` when they differ. -/
def cpuProcessColumn (used : List (String × PartInfo)) (acc : List String)
    (c : Node) : Except PyErr (List String) := do
  let (column_name, table_name) := get_column_and_table_name_from_column c
  if !(pyStrOptTruthy column_name) then
    pure acc
  else
    let cn := column_name.getD ""
    let acc1 ←
      match table_name with
      | some tn =>
        if (alookup used (pyReplace tn "*" "")).isSome then
          match alookup used tn with
          | some v =>
            pure (if pyLower cn = pyLower v.partition_column then
              setAdd acc v.full_table_name else acc)
          | none => throw (.keyError tn)
        else pure acc
      | none => pure acc
    if !(pyStrOptTruthy table_name) then
      pure (cpuFallbackBreak used cn acc1)
    else
      pure (cpuFallbackAll used cn acc1)

/-- The evidence construction of antipatterns.py lines 226-237: report every
tracked table whose full name was never marked as used, deduplicating
through `passed`. -/
def cpuBuildResult (used : List (String × PartInfo)) (usedSet : List String) :
    List PartitionEvid :=
  (used.foldl
    (fun (p : List PartitionEvid × List String) kv =>
      if !(usedSet.contains kv.2.full_table_name)
          && !(p.2.contains kv.2.full_table_name) then
        (p.1 ++ [⟨kv.2.full_table_name, kv.2.partition_column⟩],
         p.2 ++ [kv.2.full_table_name])
      else p) ([], [])).1

/-- `check_partition_used` (antipatterns.py lines 173-238). -/
def check_partition_used (ast : Node) (columnsDict : Catalog) :
    Except PyErr (Bool × List PartitionEvid) := do
  let used := get_partitioned_tables ast columnsDict
  if used.length > 0 then
    let usedSet ← (cpuColumns ast).foldlM (cpuProcessColumn used) ([] : List String)
    let result := cpuBuildResult used usedSet
    pure (result.length > 0, result)
  else
    pure (false, [])

/-- A two-table catalog: `proj.ds.a` partitioned on `pa`, `proj.ds.b`
partitioned on `dt`. -/
def c6Cat : Catalog :=
  [("proj.ds.a", ⟨4000, some "pa", ["pa"], "a"⟩),
   ("proj.ds.b", ⟨6000, some "dt", ["dt"], "b"⟩)]

/-- `SELECT 1 FROM proj.ds.a AS ta JOIN proj.ds.b AS tb ON 1 = 1
WHERE ta.dt = 1`: the only referenced column is `dt`, explicitly qualified
to `ta` (table A), whose name merely equals table B's partition column. -/
def c6Ast : Node :=
  .mk .select
    [("expressions", .vlist [litN "1" false]),
     ("from", .vn (fromN (withAlias (tbl3 "proj" "ds" "a") "ta"))),
     ("joins", .vlist [joinN (withAlias (tbl3 "proj" "ds" "b") "tb")
        (eqN (litN "1" false) (litN "1" false))]),
     ("where", .vn (whereN (eqN (colT "ta" "dt") (litN "1" false))))]

/-- The claim's concrete catalog: `proj.ds.big`, 50000 rows, partition
column `dt`. -/
def c6BigCat : Catalog := [("proj.ds.big", ⟨50000, some "dt", ["dt"], "big"⟩)]

/-- `SELECT x FROM proj.ds.big WHERE other_col = 1` (never referencing
`dt`). -/
def c6BigAst : Node :=
  .mk .select
    [("expressions", .vlist [colN "x"]),
     ("from", .vn (fromN (tbl3 "proj" "ds" "big"))),
     ("where", .vn (whereN (eqN (colN "other_col") (litN "1" false))))]

/-- C6, counterexample.  The claim says a column explicitly qualified to
table A whose name merely equals table B's partition column does not mark
B's partition as used.  In `SELECT 1 FROM proj.ds.a AS ta JOIN proj.ds.b AS
tb ON 1 = 1 WHERE ta.dt = 1` the only column is `dt` qualified to `ta`
(table A); under the claim, B's partition `dt` is unused and B must appear
in the evidence, but the code's `else` branch (antipatterns.py lines
221-225) matches the qualified column against *every* tracked partition
column, marks `proj.ds.b` as used, and the evidence reports only
`proj.ds.a`. -/
theorem C6_counterexample :
    get_column_and_table_name_from_column (colT "ta" "dt") =
      (some "dt", some "ta") ∧
    check_partition_used c6Ast c6Cat = .ok (true, [⟨"proj.ds.a", "pa"⟩]) := by
  decide

/-- `setAdd` adds its argument. -/
theorem setAdd_mem_self (l : List String) (x : String) : x ∈ setAdd l x := by
  unfold setAdd
  split
  next h => exact List.elem_iff.mp h
  next => exact List.mem_append_right l (List.mem_singleton.mpr rfl)

/-- `setAdd` keeps existing members. -/
theorem setAdd_pres (l : List String) (x y : String) (h : y ∈ l) :
    y ∈ setAdd l x := by
  unfold setAdd
  split
  · exact h
  · exact List.mem_append_left _ h

/-- The all-tables fallback keeps existing members. -/
theorem cpuFallbackAll_pres (cn : String) :
    ∀ (used : List (String × PartInfo)) (acc : List String) (y : String),
      y ∈ acc → y ∈ cpuFallbackAll used cn acc := by
  intro used
  induction used with
  | nil => exact fun acc y h => h
  | cons kv rest ih =>
    intro acc y h
    unfold cpuFallbackAll
    simp only [List.foldl_cons]
    show y ∈ cpuFallbackAll rest cn _
    split
    · exact ih _ y (setAdd_pres acc _ y h)
    · exact ih _ y h

/-- Unfolding one step of the all-tables fallback. -/
theorem cpuFallbackAll_cons (kv0 : String × PartInfo)
    (rest : List (String × PartInfo)) (cn : String) (acc : List String) :
    cpuFallbackAll (kv0 :: rest) cn acc =
      cpuFallbackAll rest cn
        (if pyLower cn = pyLower kv0.2.partition_column then
          setAdd acc kv0.2.full_table_name
        else acc) := rfl

/-- Every tracked table whose partition column matches the column name
(case-insensitively) is marked by the all-tables fallback. -/
theorem cpuFallbackAll_marks (cn : String) :
    ∀ (used : List (String × PartInfo)) (acc : List String)
      (kv : String × PartInfo), kv ∈ used →
      pyLower cn = pyLower kv.2.partition_column →
      kv.2.full_table_name ∈ cpuFallbackAll used cn acc := by
  intro used
  induction used with
  | nil =>
    intro acc kv h
    cases h
  | cons kv0 rest ih =>
    intro acc kv hmem hmatch
    rw [cpuFallbackAll_cons]
    rcases List.mem_cons.mp hmem with rfl | hmem'
    · rw [if_pos hmatch]
      exact cpuFallbackAll_pres cn rest _ _ (setAdd_mem_self acc _)
    · by_cases h0 : pyLower cn = pyLower kv0.2.partition_column
      · rw [if_pos h0]
        exact ih _ kv hmem' hmatch
      · rw [if_neg h0]
        exact ih _ kv hmem' hmatch

/-- C6, amended.  The code applies a partition-column name fallback to
*every* column: for a column that cannot be tied to a specific table it
scans the tracked tables and stops at the first match, while for a column
that *is* qualified to a table (after the specific-table check) it matches
the name against every tracked table's partition column — so a column
qualified to table A whose name equals table B's partition column does mark
B's partition as used.  The claim's concrete scenario is unaffected:
catalog `proj.ds.big`/`dt` with `SELECT x FROM proj.ds.big WHERE
other_col = 1` triggers and reports `{proj.ds.big, dt}`. -/
theorem C6_amended :
    check_partition_used c6BigAst c6BigCat =
      .ok (true, [⟨"proj.ds.big", "dt"⟩]) ∧
    (∀ (used : List (String × PartInfo)) (acc : List String) (c : Node)
       (cn tn : String),
       get_column_and_table_name_from_column c = (some cn, some tn) →
       cn ≠ "" → tn ≠ "" →
       (alookup used (pyReplace tn "*" "")).isSome = false →
       cpuProcessColumn used acc c = .ok (cpuFallbackAll used cn acc)) ∧
    (∀ (cn : String) (used : List (String × PartInfo)) (acc : List String)
       (kv : String × PartInfo), kv ∈ used →
       pyLower cn = pyLower kv.2.partition_column →
       kv.2.full_table_name ∈ cpuFallbackAll used cn acc) := by
  refine ⟨by decide, ?_, cpuFallbackAll_marks⟩
  intro used acc c cn tn hg hcn htn hlk
  unfold cpuProcessColumn
  rw [hg]
  simp [pyStrOptTruthy, hcn, htn, hlk]
  rfl

/-- Witness for `C6_amended`: the qualified column `ta.dt` of the
counterexample marks `proj.ds.b` as partition-used, and a column qualified
to an untracked table still falls through to the all-tables fallback. -/
theorem C6_amended_witness :
    "proj.ds.b" ∈ cpuFallbackAll (get_partitioned_tables c6Ast c6Cat) "dt" [] ∧
    cpuProcessColumn [("proj.ds.big", ⟨"proj.ds.big", true, none, "dt"⟩)] []
        (colT "zz" "other") =
      .ok (cpuFallbackAll [("proj.ds.big", ⟨"proj.ds.big", true, none, "dt"⟩)]
        "other" []) :=
  ⟨C6_amended.2.2 "dt" (get_partitioned_tables c6Ast c6Cat) []
      ("proj.ds.b", ⟨"proj.ds.b", true, some "tb", "dt"⟩) (by decide) (by decide),
   C6_amended.2.1 [("proj.ds.big", ⟨"proj.ds.big", true, none, "dt"⟩)] []
      (colT "zz" "other") "other" "zz" (by decide) (by decide) (by decide)
      (by decide)⟩

/-! ## antipatterns.py: `check_like_before_more_selective`

The rule serialises the `Where` clause's `args` mapping with `repr`, strips
spaces and newlines, and searches class-name substrings.  The embedding
produces the stripped text directly: sqlglot's `repr` prints
`ClassName(key=value, ...)` with keys in insertion order, strings unquoted
inside nodes, booleans as `True`/`False`, and the top-level `args` dict as
`{'key': value, ...}`.  (Whether a given sqlglot version prints or hides
falsy arguments such as `quoted=False` shifts indices but not the relative
order of the searched `Like`/`Regexp`/`GT`/`LT`/`EQ` tokens.) -/

/-- The Python class name of each node kind as it appears in `repr`. -/
def kindName : Kind → String
  | .select => "Select" | .withK => "With" | .cte => "CTE"
  | .tableAlias => "TableAlias" | .fromK => "From" | .whereK => "Where"
  | .join => "Join" | .table => "Table" | .column => "Column"
  | .identifier => "Identifier" | .literal => "Literal" | .star => "Star"
  | .count => "Count" | .distinct => "Distinct" | .group => "Group"
  | .boolean => "Boolean" | .andK => "And" | .eq => "EQ" | .gt => "GT"
  | .gte => "GTE" | .lt => "LT" | .like => "Like" | .inK => "In"
  | .regexpLike => "RegexpLike" | .regexpReplace => "RegexpReplace"
  | .regexpExtract => "RegexpExtract" | .between => "Between"
  | .dateSub => "DateSub" | .dateAdd => "DateAdd" | .sub => "Sub"
  | .neg => "Neg" | .mul => "Mul" | .var => "Var" | .cast => "Cast"
  | .dataType => "DataType" | .unnest => "Unnest"

/-- Remove the characters the rule strips (`" "` and `"\n"`). -/
def stripSpaces (s : String) : String :=
  ⟨s.data.filter (fun c => !(c = ' ' || c = '\n'))⟩

mutual
/-- Space-stripped `repr` of one expression node. -/
def reprNode : Node → String
  | .mk k args => kindName k ++ "(" ++ reprArgs args ++ ")"

/-- Space-stripped `repr` of an argument mapping body, comma separated. -/
def reprArgs : List (String × AVal) → String
  | [] => ""
  | (n, v) :: rest =>
    n ++ "=" ++ reprAVal v ++ (if rest.isEmpty then "" else ",") ++ reprArgs rest

/-- Space-stripped `repr` of one argument value (scalars print via `str`). -/
def reprAVal : AVal → String
  | .vn m => reprNode m
  | .vs s => stripSpaces s
  | .vb b => if b then "True" else "False"
  | .vlist ns => "[" ++ reprNodeList ns ++ "]"

/-- Space-stripped `repr` of a node list. -/
def reprNodeList : List Node → String
  | [] => ""
  | n :: rest => reprNode n ++ (if rest.isEmpty then "" else ",") ++ reprNodeList rest
end

/-- Body of the dict repr, comma separated, keys quoted. -/
def reprDictBody : List (String × AVal) → String
  | [] => ""
  | (n, v) :: rest =>
    "'" ++ n ++ "':" ++ reprAVal v ++ (if rest.isEmpty then "" else ",") ++
      reprDictBody rest

/-- `repr(node.args).replace(" ", "").replace("\n", "")` (antipatterns.py
line 116): the Python dict repr, keys quoted, then stripped. -/
def pyReprArgsStripped (n : Node) : String :=
  "\x7b" ++ reprDictBody n.args ++ "\x7d"

/-- Python `s[i:]` for a non-negative start. -/
def sliceFrom (s : String) (i : Int) : String :=
  ⟨s.data.drop i.toNat⟩

/-- Minimum of a non-empty integer list (Python `min`). -/
def listMinI : List Int → Int
  | [] => 0
  | x :: rest => rest.foldl min x

/-- The search pattern of antipatterns.py lines 117-119 for a leading
`1 = 1` guard. -/
def oneEqOnePattern : String :=
  "EQ(this=Literal(this=1,is_string=False),expression=Literal(this=1"

/-- `string_version` of antipatterns.py line 116. -/
def lbmsStringVersion (w : Node) : String :=
  pyReprArgsStripped w

/-- `index_starter` (line 122): `max(one_eq_one_starter + bool_starter, 0)`
— note the *sum* of the two find results. -/
def lbmsIndexStarter (sv : String) : Int :=
  max (pyFind sv oneEqOnePattern + pyFind sv "this=Boolean(this=True)") 0

/-- The sliced string `string_version[index_starter:]` every later search
runs on. -/
def lbmsRest (w : Node) : String :=
  sliceFrom (lbmsStringVersion w) (lbmsIndexStarter (lbmsStringVersion w))

/-- `more_selective_clauses` (lines 133-141): the finds for `GT`, `LT`,
`EQ`, `expression=In` that are non-negative, in code order. -/
def lbmsMoreSelective (sv : String) : List Int :=
  (if pyFind sv "GT" ≥ 0 then [pyFind sv "GT"] else []) ++
  (if pyFind sv "LT" ≥ 0 then [pyFind sv "LT"] else []) ++
  (if pyFind sv "EQ" ≥ 0 then [pyFind sv "EQ"] else []) ++
  (if pyFind sv "expression=In" ≥ 0 then [pyFind sv "expression=In"] else [])

/-- `less_selective_clause_index` (lines 123-131): starts at `-1`; a found
`"Like"` sets it, but a simultaneous `"Regexp"` hit collapses it to
`min(like_clause, -1) = -1`. -/
def lbmsLess (rest : String) : Int :=
  let like_clause := pyFind rest "Like"
  let regexp_clause := pyFind rest "Regexp"
  if like_clause > -1 then
    (if regexp_clause > -1 then min like_clause (-1) else like_clause)
  else -1

/-- `check_like_before_more_selective` (antipatterns.py lines 97-146). -/
def check_like_before_more_selective (ast : Node) : Bool :=
  match argNode ast "where" with
  | none => false
  | some w =>
    if (findK w .like).isSome || (findK w .regexpLike).isSome
        || (findK w .regexpReplace).isSome || (findK w .regexpExtract).isSome then
      let rest := lbmsRest w
      let more := lbmsMoreSelective rest
      if !more.isEmpty then decide (listMinI more > lbmsLess rest) else false
    else false

/-- `Like(this=l, expression=r)`. -/
def likeN (l r : Node) : Node :=
  .mk .like [("this", .vn l), ("expression", .vn r)]

/-- `RegexpLike(this=l, expression=r)` (BigQuery `REGEXP_CONTAINS`). -/
def regexpLikeN (l r : Node) : Node :=
  .mk .regexpLike [("this", .vn l), ("expression", .vn r)]

/-- `WHERE a LIKE '%x%' AND id = 5`. -/
def c8Where1 : Node :=
  whereN (andN (likeN (colN "a") (litN "%x%" true))
    (eqN (colN "id") (litN "5" false)))

/-- `SELECT a FROM t WHERE a LIKE '%x%' AND id = 5`. -/
def c8Ast1 : Node :=
  .mk .select [("expressions", .vlist [colN "a"]),
    ("from", .vn (fromN (tbl1 "t"))), ("where", .vn c8Where1)]

/-- `WHERE id = 5 AND a LIKE '%x%'`. -/
def c8Where2 : Node :=
  whereN (andN (eqN (colN "id") (litN "5" false))
    (likeN (colN "a") (litN "%x%" true)))

/-- `SELECT a FROM t WHERE id = 5 AND a LIKE '%x%'`. -/
def c8Ast2 : Node :=
  .mk .select [("expressions", .vlist [colN "a"]),
    ("from", .vn (fromN (tbl1 "t"))), ("where", .vn c8Where2)]

/-- `WHERE id = 5 AND REGEXP_CONTAINS(a, 'x')`: the selective predicate
comes first, the pattern predicate second. -/
def c8Where3 : Node :=
  whereN (andN (eqN (colN "id") (litN "5" false))
    (regexpLikeN (colN "a") (litN "x" true)))

/-- `SELECT a FROM t WHERE id = 5 AND REGEXP_CONTAINS(a, 'x')`. -/
def c8Ast3 : Node :=
  .mk .select [("expressions", .vlist [colN "a"]),
    ("from", .vn (fromN (tbl1 "t"))), ("where", .vn c8Where3)]

/-- C8, counterexample.  The claim says the rule triggers exactly when the
earliest pattern-match predicate's position precedes the earliest position
of a more selective predicate.  In `WHERE id = 5 AND REGEXP_CONTAINS(a,
'x')` the `EQ` token occurs strictly before the `Regexp` token in the
serialised clause, so under the claim the rule must not trigger — but the
code returns `true`: the substring `"Like"` inside `"RegexpLike"` combines
with the found `"Regexp"` to collapse the pattern index to
`min(like_clause, -1) = -1` (antipatterns.py line 129), after which any
selective hit anywhere fires the rule. -/
theorem C8_counterexample :
    check_like_before_more_selective c8Ast3 = true ∧
    0 ≤ pyFind (lbmsStringVersion c8Where3) "EQ" ∧
    pyFind (lbmsStringVersion c8Where3) "EQ"
      < pyFind (lbmsStringVersion c8Where3) "Regexp" := by
  decide

/-- Members of `more_selective_clauses` are non-negative by construction. -/
theorem lbmsMoreSelective_nonneg (sv : String) (x : Int)
    (hx : x ∈ lbmsMoreSelective sv) : 0 ≤ x := by
  simp only [lbmsMoreSelective, List.mem_append] at hx
  rcases hx with ((hx | hx) | hx) | hx <;>
    · revert hx
      split <;> simp_all

/-- A lower bound of all members bounds the minimum. -/
theorem listMinI_ge (l : List Int) (a : Int) (h : ∀ x ∈ l, a ≤ x)
    (hne : l ≠ []) : a ≤ listMinI l := by
  cases l with
  | nil => exact absurd rfl hne
  | cons x rest =>
    unfold listMinI
    have hgen : ∀ (rest : List Int) (x : Int), a ≤ x → (∀ y ∈ rest, a ≤ y) →
        a ≤ rest.foldl min x := by
      intro rest
      induction rest with
      | nil => exact fun x hx _ => hx
      | cons y ys ih =>
        intro x hx hy
        simp only [List.foldl_cons]
        exact ih (min x y) (le_min hx (hy y (List.mem_cons_self y ys)))
          (fun z hz => hy z (List.mem_cons_of_mem y hz))
    exact hgen rest x (h x (List.mem_cons_self x rest))
      (fun y hy => h y (List.mem_cons_of_mem x hy))

/-- C8, amended.  The rule compares token positions in the space-stripped
`repr` of the `Where` clause after an offset that skips a leading `1 = 1` /
`TRUE` guard.  When only plain `Like` predicates occur (no `Regexp` token),
it triggers exactly when some selective token (`GT`, `LT`, `EQ`,
`expression=In`) exists and the earliest of them sits after the earliest
`"Like"` token — so the claim's two concrete examples behave as stated.
When a `Regexp`-family node is present, however, the pattern index collapses
to `-1` and the rule triggers whenever any selective token occurs anywhere,
regardless of order. -/
theorem C8_amended :
    check_like_before_more_selective c8Ast1 = true ∧
    check_like_before_more_selective c8Ast2 = false ∧
    (∀ (ast w : Node), argNode ast "where" = some w →
      ((findK w .like).isSome || (findK w .regexpLike).isSome
        || (findK w .regexpReplace).isSome
        || (findK w .regexpExtract).isSome) = true →
      pyFind (lbmsRest w) "Like" > -1 →
      pyFind (lbmsRest w) "Regexp" > -1 →
      check_like_before_more_selective ast =
        !(lbmsMoreSelective (lbmsRest w)).isEmpty) ∧
    (∀ (ast w : Node), argNode ast "where" = some w →
      ((findK w .like).isSome || (findK w .regexpLike).isSome
        || (findK w .regexpReplace).isSome
        || (findK w .regexpExtract).isSome) = true →
      pyFind (lbmsRest w) "Like" > -1 →
      pyFind (lbmsRest w) "Regexp" ≤ -1 →
      check_like_before_more_selective ast =
        (!(lbmsMoreSelective (lbmsRest w)).isEmpty
          && decide (listMinI (lbmsMoreSelective (lbmsRest w))
            > pyFind (lbmsRest w) "Like"))) := by
  refine ⟨by decide, by decide, ?_, ?_⟩
  · intro ast w hw hguard hlike hreg
    unfold check_like_before_more_selective
    rw [hw]
    dsimp only
    rw [if_pos hguard]
    have hless : lbmsLess (lbmsRest w) = -1 := by
      unfold lbmsLess
      rw [if_pos hlike, if_pos hreg]
      exact min_eq_right (by omega)
    by_cases hemp : (lbmsMoreSelective (lbmsRest w)).isEmpty
    · simp [hemp]
    · have hne : lbmsMoreSelective (lbmsRest w) ≠ [] := by
        simpa [List.isEmpty_iff] using hemp
      have hmin : (0 : Int) ≤ listMinI (lbmsMoreSelective (lbmsRest w)) :=
        listMinI_ge _ 0 (fun x hx => lbmsMoreSelective_nonneg _ x hx) hne
      simp only [hemp, hless, Bool.not_false]
      simp only [if_true]
      rw [Bool.eq_iff_iff]
      constructor
      · intro _
        rfl
      · intro _
        exact decide_eq_true (by omega)
  · intro ast w hw hguard hlike hreg
    unfold check_like_before_more_selective
    rw [hw]
    dsimp only
    rw [if_pos hguard]
    have hless : lbmsLess (lbmsRest w) = pyFind (lbmsRest w) "Like" := by
      unfold lbmsLess
      rw [if_pos hlike, if_neg (by omega)]
    by_cases hemp : (lbmsMoreSelective (lbmsRest w)).isEmpty
    · simp [hemp]
    · simp only [hemp, hless, Bool.not_false, if_true, Bool.true_and]

/-- Witness for `C8_amended` at the concrete regexp and plain-like
statements. -/
theorem C8_amended_witness :
    check_like_before_more_selective c8Ast3 =
      !(lbmsMoreSelective (lbmsRest c8Where3)).isEmpty ∧
    check_like_before_more_selective c8Ast1 =
      (!(lbmsMoreSelective (lbmsRest c8Where1)).isEmpty
        && decide (listMinI (lbmsMoreSelective (lbmsRest c8Where1))
          > pyFind (lbmsRest c8Where1) "Like")) :=
  ⟨C8_amended.2.2.1 c8Ast3 c8Where3 rfl (by decide) (by decide) (by decide),
   C8_amended.2.2.2 c8Ast1 c8Where1 rfl (by decide) (by decide) (by decide)⟩

/-! ## antipatterns.py: `check_big_date_range`

The day-conversion dictionary holds decimal constants (`0.0007`, `0.04`,
`0.00001166666667`, ...).  All of them are exact multiples of `10^-14`, and
every multiplication in the rule has an integer factor, so the embedding
carries day quantities as integers scaled by `10^14`
(`c7Scale`) — an exact model of the real-valued computation.  The injectable
"now" is the current date as a day number (`daysSinceYearOne`), matching
`(datetime.now() - date_conv).days`, which equals the calendar-day
difference for any intra-day time. -/

/-- The scaling factor `10^14`. -/
def c7Scale : Int := 100000000000000

/-- The `days` dictionary (antipatterns.py lines 248-257), scaled by
`10^14`; `none` models a `KeyError`. -/
def daysScaled (u : String) : Option Int :=
  if u = "DAY" then some 100000000000000
  else if u = "WEEK" then some 700000000000000
  else if u = "MONTH" then some 3000000000000000
  else if u = "YEAR" then some 36500000000000000
  else if u = "MINUTE" then some 70000000000
  else if u = "HOUR" then some 4000000000000
  else if u = "QUARTER" then some 9000000000000000
  else if u = "SECOND" then some 1166666667
  else none

/-- Gregorian leap year. -/
def isLeapYear (y : Nat) : Bool :=
  (y % 4 = 0 && !(y % 100 = 0)) || y % 400 = 0

/-- Days before month `m` in a non-leap year. -/
def monthOffset : Nat → Nat
  | 1 => 0 | 2 => 31 | 3 => 59 | 4 => 90 | 5 => 120 | 6 => 151
  | 7 => 181 | 8 => 212 | 9 => 243 | 10 => 273 | 11 => 304 | _ => 334

/-- Length of month `m` of year `y` (`strptime` validates the calendar). -/
def daysInMonth (y m : Nat) : Nat :=
  if m = 2 then (if isLeapYear y then 29 else 28)
  else if m = 4 || m = 6 || m = 9 || m = 11 then 30
  else 31

/-- Day number of a calendar date, counting from 0001-01-01 = 0. -/
def daysSinceYearOne (y m d : Nat) : Nat :=
  let yb := y - 1
  yb * 365 + yb / 4 - yb / 100 + yb / 400 + monthOffset m +
    (if 2 < m && isLeapYear y then 1 else 0) + (d - 1)

/-- Python `s[:10]`. -/
def take10 (s : String) : String :=
  ⟨s.data.take 10⟩

/-- `datetime.strptime(s, "%Y-%m-%d")` on a 10-character prefix: four
digits, dash, two digits, dash, two digits, calendar-valid; `none` models
the `ValueError`. -/
def parseDate10 (s : String) : Option Nat :=
  match s.data with
  | [y1, y2, y3, y4, h1, m1, m2, h2, d1, d2] =>
    if y1.isDigit && y2.isDigit && y3.isDigit && y4.isDigit && h1 = '-'
        && m1.isDigit && m2.isDigit && h2 = '-' && d1.isDigit && d2.isDigit then
      let y := digitsToNat [y1, y2, y3, y4]
      let m := digitsToNat [m1, m2]
      let d := digitsToNat [d1, d2]
      if 1 ≤ y && 1 ≤ m && m ≤ 12 && 1 ≤ d && d ≤ daysInMonth y m then
        some (daysSinceYearOne y m d)
      else none
    else none
  | _ => none

/-- The `multiplier` assignment from the `unit` argument (antipatterns.py
lines 289-294): start at `1`, overwrite with `days[unit.this]` when the
argument is present and truthy (`KeyError` for an unknown unit name). -/
def c7MultUnit (i : Node) : Except PyErr Int :=
  match argGet i "unit" with
  | none => .ok c7Scale
  | some uv =>
    if uv.truthy then
      match uv with
      | .vn u =>
        (match argGet u "this" with
         | none => .ok c7Scale
         | some v =>
           if v.truthy then
             (match v with
              | .vs s =>
                (match daysScaled s with
                 | some q => .ok q
                 | none => .error (.keyError s))
              | _ => .error (.keyError "unit"))
           else .ok c7Scale)
      | _ => .error (.attributeError "unit")
    else .ok c7Scale

/-- The full `multiplier` resolution (antipatterns.py lines 289-307): the
`unit` value first, then overwritten by a found `Var`'s day value, else — 
only when no `Var` exists at all — by `int()` of a found `Mul`'s
second operand. -/
def c7Multiplier (i : Node) : Except PyErr Int := do
  let mu ← c7MultUnit i
  match findK i .var with
  | some v =>
    (match argGet v "this" with
     | none => pure mu
     | some w =>
       if w.truthy then
         match w with
         | .vs s =>
           (match daysScaled s with
            | some q => pure q
            | none => throw (.keyError s))
         | _ => throw (.keyError "var")
       else pure mu)
  | none =>
    match findK i .mul with
    | some mulE =>
      (match argGet mulE "expression" with
       | none => pure mu
       | some ev =>
         if ev.truthy then
           match ev with
           | .vn e =>
             (match argGet e "this" with
              | none => pure mu
              | some t =>
                if t.truthy then
                  match t with
                  | .vs s => do
                    let n ← pyIntParse s
                    pure (n * c7Scale)
                  | _ => throw (.typeError "int() argument")
                else pure mu)
           | _ => throw (.attributeError "expression")
         else pure mu)
    | none => pure mu

/-- The inner literal loop of the date-arithmetic branch (antipatterns.py
lines 284-308): every numeric literal under `i` overwrites `date_diff` with
`int(literal) * multiplier`, so the *last* numeric literal wins. -/
def c7LiteralsPass (i : Node) (dd : Option Int) : Except PyErr (Option Int) :=
  if (findK i .literal).isSome then
    (findAll i .literal).foldlM
      (fun dd j =>
        match argGet j "this" with
        | some lv =>
          if lv.truthy && pyIsNumeric (pyStrOfAVal lv) then do
            let mult ← c7Multiplier i
            pure (some ((pyIntOfDigits (pyStrOfAVal lv) : Int) * mult))
          else pure dd
        | none => pure dd) dd
  else pure dd

/-- The per-predicate `date_diff` computation (antipatterns.py lines
263-324), threading the function-scoped `date_exp` variable (`none` =
still unbound; reading it unbound raises `NameError`).  Returns the final
`date_diff` of this predicate and the updated `date_exp` binding. -/
def c7Diff (now : Int) (dIn : Option String) (d : Node) :
    Except PyErr (Option Int × Option String) := do
  let thisN ←
    match argGet d "this" with
    | none => throw (.keyError "this")
    | some (.vn n) => pure n
    | some _ => throw (.attributeError "this")
  match findK thisN .identifier with
  | none => pure (none, dIn)
  | some idn => do
    let case0 ←
      match argGet idn "this" with
      | some (.vs s) => pure (pyLower s)
      | _ => throw (.attributeError "lower")
    let case_check ←
      match findK d .cast with
      | some castE =>
        (match argGet castE "to" with
         | some (.vn toN) =>
           (match argGet toN "this" with
            | some v => pure (if v.truthy then pyLower (pyStrOfAVal v) else case0)
            | none => pure case0)
         | some sv => if sv.truthy then throw (.attributeError "to") else pure case0
         | none => pure case0)
      | none => pure case0
    if !(pyContains case_check "date" || pyContains case_check "time"
        || pyContains case_check "partition") then
      pure (none, dIn)
    else
      if (findK d .dateSub).isSome || (findK d .sub).isSome
          || ((findK d .neg).isSome && (findK d .dateAdd).isSome) then do
        let dd ← (findAll d .dateSub ++ findAll d .sub ++ findAll d .dateAdd).foldlM
          (fun dd i => c7LiteralsPass i dd) (none : Option Int)
        pure (dd, dIn)
      else if truthyOpt (argGet d "low") then
        match argGet d "low" with
        | some (.vn lowN) =>
          let thisOpt := argGet lowN "this"
          let de : Option String :=
            if truthyOpt thisOpt then some (pyReplace (pyStrOpt thisOpt) "'" "")
            else dIn
          (match de with
           | none => throw (.nameError "date_exp")
           | some s =>
             if s.length > 9 && pyContains s "-" then
               (match parseDate10 (take10 s) with
                | some days => pure (some ((now - (days : Int)) * c7Scale), some s)
                | none => throw (.valueError "strptime"))
             else pure (none, some s))
        | _ => throw (.attributeError "low")
      else
        match argGet d "expression" with
        | none => throw (.keyError "expression")
        | some (.vn exprN) =>
          (match findK exprN .literal with
           | none => pure (none, dIn)
           | some litE =>
             match argGet litE "this" with
             | some (.vs s) =>
               if s.length > 9 && pyContains s "-" then
                 (match parseDate10 (take10 s) with
                  | some days => pure (some ((now - (days : Int)) * c7Scale), some s)
                  | none => throw (.valueError "strptime"))
               else pure (none, some s)
             | other =>
               let sv := pyStrOpt other
               if sv.length > 9 && pyContains sv "-" then
                 throw (.typeError "subscript")
               else pure (none, some sv))
        | some _ => throw (.attributeError "expression")

/-- `if date_diff: if date_diff > 365: status = True` (lines 325-327),
scaled. -/
def c7Over365 : Option Int → Bool
  | some v => decide (v > 365 * c7Scale)
  | none => false

/-- The loop state: the `status` flag and the `date_exp` binding. -/
structure C7St where
  status : Bool
  dateExpVar : Option String
  deriving DecidableEq, Repr

/-- One iteration of the `for d` loop. -/
def c7Step (now : Int) (st : C7St) (d : Node) : Except PyErr C7St := do
  let (dd, de) ← c7Diff now st.dateExpVar d
  pure ⟨st.status || c7Over365 dd, de⟩

/-- The predicates the rule inspects: `Between`/`GTE`/`GT` under every
`Where` and then every `Join` clause (antipatterns.py lines 258-262). -/
def cbdrCandidates (ast : Node) : List Node :=
  (findAll ast .whereK ++ findAll ast .join).foldl
    (fun acc w => acc ++ (findAll w .between ++ findAll w .gte ++ findAll w .gt)) []

/-- `check_big_date_range` (antipatterns.py lines 241-328) with an injected
"now" day number. -/
def check_big_date_range (now : Int) (ast : Node) : Except PyErr Bool := do
  let final ← (cbdrCandidates ast).foldlM (c7Step now) ⟨false, none⟩
  pure final.status

/-- The per-predicate `date_diff` values of a candidate list, threading the
`date_exp` binding exactly like the loop. -/
def c7Spans (now : Int) : Option String → List Node → Except PyErr (List (Option Int))
  | _, [] => .ok []
  | dIn, d :: rest => do
    let (dd, de) ← c7Diff now dIn d
    let tail ← c7Spans now de rest
    pure (dd :: tail)

/-- If the status loop completes, the span list completes as well, and the
final status is the initial one OR'ed with "some span exceeds 365 days". -/
theorem c7_fold_spans (now : Int) : ∀ (ds : List Node) (dIn : Option String)
    (st0 : Bool) (stf : C7St),
    ds.foldlM (c7Step now) ⟨st0, dIn⟩ = .ok stf →
    ∃ spans, c7Spans now dIn ds = .ok spans ∧
      stf.status = (st0 || spans.any c7Over365) := by
  intro ds
  induction ds with
  | nil =>
    intro dIn st0 stf h
    simp only [List.foldlM_nil, pure, Except.pure] at h
    cases h
    exact ⟨[], rfl, by simp [c7Spans]⟩
  | cons d rest ih =>
    intro dIn st0 stf h
    rw [List.foldlM_cons] at h
    cases hdiff : c7Diff now dIn d with
    | error e =>
      have hstep : c7Step now ⟨st0, dIn⟩ d = .error e := by
        simp [c7Step, hdiff, bind, Except.bind]
      rw [hstep] at h
      simp [bind, Except.bind] at h
    | ok p =>
      obtain ⟨dd, de⟩ := p
      have hstep : c7Step now ⟨st0, dIn⟩ d = .ok ⟨st0 || c7Over365 dd, de⟩ := by
        simp [c7Step, hdiff, bind, Except.bind, pure, Except.pure]
      rw [hstep] at h
      simp only [bind, Except.bind] at h
      obtain ⟨spans', hsp, hstat⟩ := ih de (st0 || c7Over365 dd) stf h
      refine ⟨dd :: spans', ?_, ?_⟩
      · simp [c7Spans, hdiff, hsp, bind, Except.bind, pure, Except.pure]
      · rw [hstat]
        simp [List.any_cons, Bool.or_assoc, Bool.or_comm (c7Over365 dd)]
  
/-- Conversely, if the span list completes, so does the status loop, with
the same status characterisation. -/
theorem c7_spans_fold (now : Int) : ∀ (ds : List Node) (dIn : Option String)
    (st0 : Bool) (spans : List (Option Int)),
    c7Spans now dIn ds = .ok spans →
    ∃ stf : C7St, ds.foldlM (c7Step now) ⟨st0, dIn⟩ = .ok stf ∧
      stf.status = (st0 || spans.any c7Over365) := by
  intro ds
  induction ds with
  | nil =>
    intro dIn st0 spans h
    simp only [c7Spans] at h
    cases h
    exact ⟨⟨st0, dIn⟩, by simp [List.foldlM_nil, pure, Except.pure], by simp⟩
  | cons d rest ih =>
    intro dIn st0 spans h
    simp only [c7Spans] at h
    cases hdiff : c7Diff now dIn d with
    | error e =>
      rw [hdiff] at h
      simp [bind, Except.bind] at h
    | ok p =>
      obtain ⟨dd, de⟩ := p
      rw [hdiff] at h
      simp only [bind, Except.bind] at h
      cases htail : c7Spans now de rest with
      | error e =>
        rw [htail] at h
        simp at h
      | ok spans' =>
        rw [htail] at h
        simp only [pure, Except.pure, Except.ok.injEq] at h
        obtain ⟨stf, hfold, hstat⟩ := ih de (st0 || c7Over365 dd) spans' htail
        refine ⟨stf, ?_, ?_⟩
        · rw [List.foldlM_cons]
          have hstep : c7Step now ⟨st0, dIn⟩ d = .ok ⟨st0 || c7Over365 dd, de⟩ := by
            simp [c7Step, hdiff, bind, Except.bind, pure, Except.pure]
          rw [hstep]
          simpa [bind, Except.bind] using hfold
        · rw [hstat, ← h]
          simp [List.any_cons, Bool.or_assoc, Bool.or_comm (c7Over365 dd)]

/- Concrete material for the big_date_range claim. -/

def subN (l r : Node) : Node := .mk .sub [("this", .vn l), ("expression", .vn r)]

def mulN (l r : Node) : Node := .mk .mul [("this", .vn l), ("expression", .vn r)]

def gtN (l r : Node) : Node := .mk .gt [("this", .vn l), ("expression", .vn r)]

def gteN (l r : Node) : Node := .mk .gte [("this", .vn l), ("expression", .vn r)]

def varN (s : String) : Node := .mk .var [("this", .vs s)]

def dateSubN (t e u : Node) : Node :=
  .mk .dateSub [("this", .vn t), ("expression", .vn e), ("unit", .vn u)]

/-- A fixed "today" (2026-10-12) injected for `datetime.now()`. -/
def c7Now : Int := daysSinceYearOne 2026 10 12

/-- The date-arithmetic node `started_at - 400 * 2`. -/
def c7SubNode : Node := subN (colN "started_at") (mulN (litN "400" false) (litN "2" false))

def c7MulWhere : Node := whereN (gtN (colN "date_col") c7SubNode)

/-- `SELECT a FROM t WHERE date_col > started_at - 400 * 2`. -/
def c7MulAst : Node := .mk .select [("expressions", .vlist [colN "a"]),
  ("from", .vn (fromN (tbl1 "t"))), ("where", .vn c7MulWhere)]

/-- The interval node `DATE_SUB(cur, INTERVAL 400 DAY)` (sqlglot puts the
`DAY` token both in the `unit` argument and as a findable `Var`). -/
def c7Dsub400 : Node := dateSubN (colN "cur") (litN "400" false) (varN "DAY")

/-- `SELECT a FROM t WHERE event_date >= DATE_SUB(cur, INTERVAL 400 DAY)`. -/
def c7Ast400 : Node := .mk .select [("expressions", .vlist [colN "a"]),
  ("from", .vn (fromN (tbl1 "t"))),
  ("where", .vn (whereN (gteN (colN "event_date") c7Dsub400)))]

/-- Same query with a 365-day interval. -/
def c7Ast365 : Node := .mk .select [("expressions", .vlist [colN "a"]),
  ("from", .vn (fromN (tbl1 "t"))),
  ("where", .vn (whereN (gteN (colN "event_date")
    (dateSubN (colN "cur") (litN "365" false) (varN "DAY")))))]

/-- `SELECT a FROM t WHERE event_date >= '2020-01-01'`. -/
def c7AstLit : Node := .mk .select [("expressions", .vlist [colN "a"]),
  ("from", .vn (fromN (tbl1 "t"))),
  ("where", .vn (whereN (gteN (colN "event_date") (litN "2020-01-01" true))))]

/-- This definition follows the CLAIM's wording, not the source, for
comparison: the magnitude is "the first numeric literal found under the
date-arithmetic node". -/
def specC7FirstNumericLiteral (i : Node) : Option Int :=
  (findAll i .literal).foldr
    (fun j acc =>
      match argGet j "this" with
      | some lv =>
        if lv.truthy && pyIsNumeric (pyStrOfAVal lv) then
          some ((pyIntOfDigits (pyStrOfAVal lv) : Int))
        else acc
      | none => acc) none

/-- This definition follows the CLAIM's wording, not the source, for
comparison: "the day-multiplier is resolved in the order: explicit unit
argument, else a bare unit token, else a multiplication literal"
(scaled by `c7Scale`, default one day). -/
def specC7Multiplier (i : Node) : Option Int :=
  match argGet i "unit" with
  | some (.vn u) =>
    (match argGet u "this" with
     | some (.vs s) => daysScaled s
     | _ => none)
  | _ =>
    match findK i .var with
    | some v =>
      (match argGet v "this" with
       | some (.vs s) => daysScaled s
       | _ => none)
    | none =>
      match findK i .mul with
      | some m =>
        (match argGet m "expression" with
         | some (.vn e) =>
           (match argGet e "this" with
            | some (.vs s) =>
              (match pyIntParse s with
               | .ok n => some (n * c7Scale)
               | .error _ => none)
            | _ => none)
         | _ => none)
      | none => some c7Scale

/-- The span predicted by the CLAIM's wording: first literal times the
claim-ordered multiplier. -/
def specC7Span (i : Node) : Option Int :=
  match specC7FirstNumericLiteral i, specC7Multiplier i with
  | some n, some m => some (n * m)
  | _, _ => none

/-- C7 counterexample: in `SELECT a FROM t WHERE date_col > started_at - 400 * 2`
the claim's rule (first literal 400, multiplication-literal multiplier 2)
predicts a span of 800 days, which exceeds 365, so the claim predicts a
trigger; the code instead lets the LAST numeric literal (2) overwrite the
magnitude, computes a span of 4 days, and returns false. -/
theorem C7_counterexample :
    specC7FirstNumericLiteral c7SubNode = some 400
    ∧ specC7Multiplier c7SubNode = some (2 * c7Scale)
    ∧ specC7Span c7SubNode = some (800 * c7Scale)
    ∧ (365 : Int) * c7Scale < 800 * c7Scale
    ∧ c7Spans c7Now none (cbdrCandidates c7MulAst) = .ok [some (4 * c7Scale)]
    ∧ check_big_date_range c7Now c7MulAst = .ok false := by decide

/-- C7 amended: check_big_date_range triggers exactly when some computed
per-predicate span exceeds 365 days, but the magnitude is the LAST numeric
literal found under the date-arithmetic node (each literal overwrites
`date_diff`), and the multiplier resolution order is: a found bare unit
token (`Var`) overrides everything; else a multiplication literal; the
explicit unit argument is computed first and survives only when neither a
`Var` nor a `Mul` overrides it; default one day. Conjuncts: (1) the
trigger iff; (2) no unit argument gives the one-day base; (3) a found
`Var` overrides whatever the unit argument produced; (4) with no `Var`, a
found `Mul`'s second operand overrides the unit value; (5)-(7) concrete
thresholds: a 400-day interval triggers, a 365-day interval does not, and
a literal date more than a year before 2026-10-12 triggers. -/
theorem C7_amended :
    (∀ (now : Int) (ast : Node),
      check_big_date_range now ast = .ok true ↔
        ∃ spans, c7Spans now none (cbdrCandidates ast) = .ok spans ∧
          spans.any c7Over365 = true)
    ∧ (∀ i : Node, argGet i "unit" = none → c7MultUnit i = .ok c7Scale)
    ∧ (∀ (i v : Node) (s : String) (q mu : Int),
        findK i .var = some v → argGet v "this" = some (.vs s) →
        (AVal.vs s).truthy = true → daysScaled s = some q →
        c7MultUnit i = .ok mu → c7Multiplier i = .ok q)
    ∧ (∀ (i m e : Node) (s : String) (n mu : Int),
        findK i .var = none → findK i .mul = some m →
        argGet m "expression" = some (.vn e) → argGet e "this" = some (.vs s) →
        (AVal.vs s).truthy = true → pyIntParse s = .ok n →
        c7MultUnit i = .ok mu → c7Multiplier i = .ok (n * c7Scale))
    ∧ check_big_date_range c7Now c7Ast400 = .ok true
    ∧ check_big_date_range c7Now c7Ast365 = .ok false
    ∧ check_big_date_range c7Now c7AstLit = .ok true := by
  refine ⟨?_, ?_, ?_, ?_, by decide, by decide, by decide⟩
  · intro now ast
    constructor
    · intro h
      unfold check_big_date_range at h
      cases hf : (cbdrCandidates ast).foldlM (c7Step now) ⟨false, none⟩ with
      | error e =>
        rw [hf] at h
        simp [bind, Except.bind] at h
      | ok stf =>
        rw [hf] at h
        simp only [bind, Except.bind, pure, Except.pure, Except.ok.injEq] at h
        obtain ⟨spans, hsp, hstat⟩ := c7_fold_spans now (cbdrCandidates ast) none false stf hf
        rw [hstat] at h
        simp only [Bool.false_or] at h
        exact ⟨spans, hsp, h⟩
    · rintro ⟨spans, hsp, hany⟩
      obtain ⟨stf, hfold, hstat⟩ := c7_spans_fold now (cbdrCandidates ast) none false spans hsp
      unfold check_big_date_range
      rw [hfold]
      simp [bind, Except.bind, pure, Except.pure, hstat, hany]
  · intro i h
    simp [c7MultUnit, h]
  · intro i v s q mu hv hthis htr hdays hmu
    simp [c7Multiplier, hmu, hv, hthis, htr, hdays, bind, Except.bind, pure, Except.pure]
  · intro i m e s n mu hvar hmul hexpr hthis htr hparse hmu
    simp [c7Multiplier, hmu, hvar, hmul, hexpr, hthis, htr, hparse,
      AVal.truthy, bind, Except.bind, pure, Except.pure]
    intro hs
    rw [hs] at htr
    simp [AVal.truthy] at htr

/-- Witness for C7_amended at concrete inputs. -/
theorem C7_amended_witness :
    (∃ spans, c7Spans c7Now none (cbdrCandidates c7Ast400) = .ok spans ∧
      spans.any c7Over365 = true)
    ∧ c7MultUnit c7SubNode = .ok c7Scale
    ∧ c7Multiplier c7Dsub400 = .ok c7Scale
    ∧ c7Multiplier c7SubNode = .ok (2 * c7Scale) := by
  refine ⟨(C7_amended.1 c7Now c7Ast400).mp (by decide),
    C7_amended.2.1 c7SubNode rfl, ?_, ?_⟩
  · exact C7_amended.2.2.1 c7Dsub400 (varN "DAY") "DAY" c7Scale c7Scale
      rfl rfl (by decide) rfl rfl
  · exact C7_amended.2.2.2.1 c7SubNode (mulN (litN "400" false) (litN "2" false))
      (litN "2" false) "2" 2 c7Scale
      rfl rfl rfl rfl (by decide) rfl rfl
